import Mathlib

/-!
# Verification of the multi-provider fallback orchestration core

A shallow embedding of the TTS / image-generation endpoints of the
`free-voice` repository: the Node `Buffer` byte-writing primitives, the
synthetic WAV/MP3/PNG placeholder generators, the request validators and
the sequential provider waterfalls, together with theorems settling the
specification's claims about them.

Modelling conventions:

* A Node `Buffer` is a size plus a byte-valued function; `Buffer.alloc`
  zero-fills, and every `write*` is a functional update, so out-of-range
  assignments are silent no-ops on the observable `bytes` list, matching
  Node's typed-array semantics.
* JavaScript numbers are embedded as `ℚ`; `Math.floor` is `Int.floor`.
* Values produced by the transcendental library calls (`Math.sin`,
  `Math.exp`) and by `Math.random()` are passed in as explicit oracle
  parameters (`ℕ → ℚ`, indexed by sample index or write offset), so every
  generator is a pure function of its text, options and oracles.  All
  surrounding arithmetic (scaling, envelopes, clamping, header fields,
  sizes) is embedded exactly.
* Network calls of the provider waterfalls are embedded as environment
  records holding each fetch's outcome (`response.ok`, content-type
  checks, body bytes); a thrown exception on a fetch is observationally
  the same as `ok = false` for these code paths.
-/

/-- A Node `Buffer`: an allocated size and the byte stored at each offset. -/
structure Buf where
  size : ℕ
  data : ℕ → ℕ

namespace Buf

/-- `Buffer.alloc(n)` — `n` zero bytes. -/
def alloc (n : ℕ) : Buf := ⟨n, fun _ => 0⟩

/-- `buffer[off] = v`. -/
def writeByte (b : Buf) (off v : ℕ) : Buf :=
  ⟨b.size, fun i => if i = off then v else b.data i⟩

/-- Write a list of bytes at consecutive offsets starting at `off`
(`Buffer.copy` of a literal source, or a multi-byte `write*` call). -/
def writeList (b : Buf) (off : ℕ) : List ℕ → Buf
  | [] => b
  | v :: rest => (b.writeByte off v).writeList (off + 1) rest

/-- The four little-endian bytes of a 32-bit value. -/
def leBytes4 (v : ℕ) : List ℕ :=
  [v % 256, v / 256 % 256, v / 65536 % 256, v / 16777216 % 256]

/-- The two little-endian bytes of a 16-bit value. -/
def leBytes2 (v : ℕ) : List ℕ := [v % 256, v / 256 % 256]

/-- `buffer.writeUInt32LE(v, off)`. -/
def writeU32LE (b : Buf) (v off : ℕ) : Buf := b.writeList off (leBytes4 v)

/-- `buffer.writeUInt16LE(v, off)`. -/
def writeU16LE (b : Buf) (v off : ℕ) : Buf := b.writeList off (leBytes2 v)

/-- `buffer.writeInt16LE(v, off)` — two's-complement 16-bit little endian. -/
def writeI16LE (b : Buf) (v : ℤ) (off : ℕ) : Buf :=
  b.writeList off (leBytes2 (v % 65536).toNat)

/-- `buffer.write(s, off)` for an ASCII string: the character codes. -/
def writeStr (b : Buf) (s : String) (off : ℕ) : Buf :=
  b.writeList off (s.toList.map Char.toNat)

/-- The observable content of the buffer. -/
def bytes (b : Buf) : List ℕ := (List.range b.size).map b.data

@[simp] theorem writeByte_size (b : Buf) (off v : ℕ) :
    (b.writeByte off v).size = b.size := rfl

@[simp] theorem writeList_size (b : Buf) (off : ℕ) (vs : List ℕ) :
    (b.writeList off vs).size = b.size := by
  induction vs generalizing b off with
  | nil => rfl
  | cons v rest ih => simp [writeList, ih]

@[simp] theorem writeU32LE_size (b : Buf) (v off : ℕ) :
    (b.writeU32LE v off).size = b.size := writeList_size ..

@[simp] theorem writeU16LE_size (b : Buf) (v off : ℕ) :
    (b.writeU16LE v off).size = b.size := writeList_size ..

@[simp] theorem writeI16LE_size (b : Buf) (v : ℤ) (off : ℕ) :
    (b.writeI16LE v off).size = b.size := writeList_size ..

@[simp] theorem writeStr_size (b : Buf) (s : String) (off : ℕ) :
    (b.writeStr s off).size = b.size := writeList_size ..

@[simp] theorem alloc_size (n : ℕ) : (alloc n).size = n := rfl

theorem writeByte_data (b : Buf) (off v j : ℕ) :
    (b.writeByte off v).data j = if j = off then v else b.data j := rfl

theorem writeList_data (b : Buf) (off : ℕ) (vs : List ℕ) (j : ℕ) :
    (b.writeList off vs).data j =
      if off ≤ j ∧ j < off + vs.length then vs.getD (j - off) 0 else b.data j := by
  induction vs generalizing b off with
  | nil =>
      simp only [writeList, List.length_nil, Nat.add_zero]
      rw [if_neg]
      omega
  | cons v rest ih =>
      simp only [writeList, List.length_cons]
      rw [ih]
      by_cases h1 : off + 1 ≤ j ∧ j < off + 1 + rest.length
      · rw [if_pos h1, if_pos (by omega)]
        have hj : j - off = (j - (off + 1)) + 1 := by omega
        rw [hj, List.getD_cons_succ]
      · rw [if_neg h1, writeByte_data]
        by_cases h2 : j = off
        · rw [if_pos h2, if_pos (by omega), h2]
          simp
        · rw [if_neg h2, if_neg (by omega)]

theorem writeList_data_lt (b : Buf) (off : ℕ) (vs : List ℕ) (j : ℕ) (h : j < off) :
    (b.writeList off vs).data j = b.data j := by
  rw [writeList_data, if_neg (by omega)]

theorem writeList_data_ge (b : Buf) (off : ℕ) (vs : List ℕ) (j : ℕ)
    (h : off + vs.length ≤ j) :
    (b.writeList off vs).data j = b.data j := by
  rw [writeList_data, if_neg (by omega)]

@[simp] theorem alloc_data (n j : ℕ) : (alloc n).data j = 0 := rfl

end Buf

/-- A `for`-style loop writing the byte `f o` at each offset `o` of `offs`. -/
def fillLoop (b : Buf) (offs : List ℕ) (f : ℕ → ℕ) : Buf :=
  match offs with
  | [] => b
  | o :: rest => fillLoop (b.writeByte o (f o)) rest f

@[simp] theorem fillLoop_size (b : Buf) (offs : List ℕ) (f : ℕ → ℕ) :
    (fillLoop b offs f).size = b.size := by
  induction offs generalizing b with
  | nil => rfl
  | cons o rest ih => simp [fillLoop, ih]

/-- What a fill loop leaves at offset `j`: the loop's value if `j` was
visited (the written value depends only on the offset, so repeated visits
agree), the previous content otherwise. -/
theorem fillLoop_data (b : Buf) (offs : List ℕ) (f : ℕ → ℕ) (j : ℕ) :
    (fillLoop b offs f).data j = if j ∈ offs then f j else b.data j := by
  induction offs generalizing b with
  | nil => simp [fillLoop]
  | cons o rest ih =>
      simp only [fillLoop, ih, Buf.writeByte, List.mem_cons]
      by_cases hm : j ∈ rest
      · rw [if_pos hm, if_pos (Or.inr hm)]
      · rw [if_neg hm]
        by_cases he : j = o
        · rw [if_pos he, if_pos (Or.inl he), he]
        · rw [if_neg he, if_neg (by tauto)]

/-- `Math.floor` on an embedded JavaScript number. -/
def jsFloor (q : ℚ) : ℤ := Int.floor q

/-- The byte stored by a plain `buffer[i] = v` assignment of a JS number:
truncate to an integer, then take the low 8 bits. -/
def byteOf (q : ℚ) : ℕ := ((jsFloor q) % 256).toNat

theorem jsFloorToNat_le (q : ℚ) (n : ℕ) (h : q ≤ (n : ℚ)) : (jsFloor q).toNat ≤ n := by
  have h1 : jsFloor q ≤ (n : ℤ) := by
    have := Int.floor_mono h
    simpa [jsFloor] using this
  omega

/-- Read the 32-bit little-endian field stored at `off`. -/
def readU32LE (b : Buf) (off : ℕ) : ℕ :=
  b.data off + 256 * b.data (off + 1) + 65536 * b.data (off + 2) +
    16777216 * b.data (off + 3)

/-- The per-sample write loop shared by every WAV generator:
`buffer.writeInt16LE(vals i, 44 + i * 2)` for `i = 0 .. n-1`. -/
def writeSamples (b : Buf) (vals : ℕ → ℤ) : ℕ → Buf
  | 0 => b
  | n + 1 => (writeSamples b vals n).writeI16LE (vals n) (44 + n * 2)

@[simp] theorem writeSamples_size (b : Buf) (vals : ℕ → ℤ) (n : ℕ) :
    (writeSamples b vals n).size = b.size := by
  induction n with
  | zero => rfl
  | succ n ih => simp [writeSamples, ih]

theorem writeSamples_data_lt (b : Buf) (vals : ℕ → ℤ) (n j : ℕ) (hj : j < 44) :
    (writeSamples b vals n).data j = b.data j := by
  induction n with
  | zero => rfl
  | succ n ih =>
      simp only [writeSamples, Buf.writeI16LE]
      rw [Buf.writeList_data_lt _ _ _ _ (by omega), ih]

@[simp] theorem riffChars : "RIFF".toList.map Char.toNat = [82, 73, 70, 70] := by decide
@[simp] theorem waveChars : "WAVE".toList.map Char.toNat = [87, 65, 86, 69] := by decide
@[simp] theorem fmtChars : "fmt ".toList.map Char.toNat = [102, 109, 116, 32] := by decide
@[simp] theorem dataChars : "data".toList.map Char.toNat = [100, 97, 116, 97] := by decide

/-- The common 44-byte-header WAV construction appearing verbatim in
`createTelegramCompatibleAudio`, `generateSyntheticSpeech`,
`generateAdvancedWAV`, `generateSimpleWAV` and `createRealisticAudio`:
allocate `44 + samples * 2`, write the RIFF/WAVE/fmt/data header fields,
then write each 16-bit sample at `44 + i * 2`. -/
def wavBuffer (sampleRate samples : ℕ) (vals : ℕ → ℤ) : Buf :=
  let dataSize := samples * 2
  let b := Buf.alloc (44 + dataSize)
  let b := b.writeStr "RIFF" 0
  let b := b.writeU32LE (36 + dataSize) 4
  let b := b.writeStr "WAVE" 8
  let b := b.writeStr "fmt " 12
  let b := b.writeU32LE 16 16
  let b := b.writeU16LE 1 20
  let b := b.writeU16LE 1 22
  let b := b.writeU32LE sampleRate 24
  let b := b.writeU32LE (sampleRate * 2) 28
  let b := b.writeU16LE 2 32
  let b := b.writeU16LE 16 34
  let b := b.writeStr "data" 36
  let b := b.writeU32LE (samples * 2) 40
  writeSamples b vals samples

@[simp] theorem wavBuffer_size (r s : ℕ) (vals : ℕ → ℤ) :
    (wavBuffer r s vals).size = 44 + s * 2 := by
  simp [wavBuffer]

theorem wavBuffer_header_bytes (r s : ℕ) (vals : ℕ → ℤ) :
    (wavBuffer r s vals).data 0 = 82 ∧ (wavBuffer r s vals).data 1 = 73 ∧
    (wavBuffer r s vals).data 2 = 70 ∧ (wavBuffer r s vals).data 3 = 70 ∧
    (wavBuffer r s vals).data 8 = 87 ∧ (wavBuffer r s vals).data 9 = 65 ∧
    (wavBuffer r s vals).data 10 = 86 ∧ (wavBuffer r s vals).data 11 = 69 ∧
    (wavBuffer r s vals).data 4 = (36 + s * 2) % 256 ∧
    (wavBuffer r s vals).data 5 = (36 + s * 2) / 256 % 256 ∧
    (wavBuffer r s vals).data 6 = (36 + s * 2) / 65536 % 256 ∧
    (wavBuffer r s vals).data 7 = (36 + s * 2) / 16777216 % 256 ∧
    (wavBuffer r s vals).data 24 = r % 256 ∧
    (wavBuffer r s vals).data 25 = r / 256 % 256 ∧
    (wavBuffer r s vals).data 26 = r / 65536 % 256 ∧
    (wavBuffer r s vals).data 27 = r / 16777216 % 256 := by
  refine ⟨?_, ?_, ?_, ?_, ?_, ?_, ?_, ?_, ?_, ?_, ?_, ?_, ?_, ?_, ?_, ?_⟩ <;>
    simp [wavBuffer, writeSamples_data_lt, Buf.writeU32LE, Buf.writeU16LE,
      Buf.writeStr, Buf.leBytes4, Buf.leBytes2, Buf.writeList_data]

theorem wavBuffer_chunkSize (r s : ℕ) (vals : ℕ → ℤ)
    (hs : 36 + s * 2 < 4294967296) :
    readU32LE (wavBuffer r s vals) 4 = 36 + s * 2 := by
  obtain ⟨-, -, -, -, -, -, -, -, h4, h5, h6, h7, -⟩ := wavBuffer_header_bytes r s vals
  unfold readU32LE
  rw [show (4 : ℕ) + 1 = 5 by rfl, show (4 : ℕ) + 2 = 6 by rfl,
    show (4 : ℕ) + 3 = 7 by rfl, h4, h5, h6, h7]
  omega

theorem wavBuffer_sampleRateField (r s : ℕ) (vals : ℕ → ℤ)
    (hr : r < 4294967296) :
    readU32LE (wavBuffer r s vals) 24 = r := by
  obtain ⟨-, -, -, -, -, -, -, -, -, -, -, -, h24, h25, h26, h27⟩ :=
    wavBuffer_header_bytes r s vals
  unfold readU32LE
  rw [show (24 : ℕ) + 1 = 25 by rfl, show (24 : ℕ) + 2 = 26 by rfl,
    show (24 : ℕ) + 3 = 27 by rfl, h24, h25, h26, h27]
  omega

/-! ## Synthesized sample values

Each WAV generator computes a JS float per sample and hands it to
`writeInt16LE`.  The transcendental subexpressions are oracle parameters;
the surrounding arithmetic — noise shaping, envelope affine maps, scale
factors, and the `Math.max(-32767, Math.min(32767, sample))` clamp where
the source has one — is embedded exactly. -/

/-- `tts-binary` WAV sample: `(Math.sin(2πf·t) + noise) * envelope * 0.3 * 32767`
clamped to `[-32767, 32767]`; `osc i` is the sine value, `env i` the
envelope value, `rng i` the `Math.random()` value at sample `i`. -/
def telegramWavWritten (osc env rng : ℕ → ℚ) (i : ℕ) : ℚ :=
  max (-32767) (min 32767 ((osc i + (rng i - 1/2) * (1/10)) * env i * (3/10) * 32767))

/-- `tts-espeak` (`generateSyntheticSpeech`) sample:
`(signal + noise) * envelope * 16383` clamped, with
`envelope = sin(wordProgress·π) * 0.8 + 0.2`; `sig i` is the summed formant
signal, `envSin i` the envelope's sine value, `rng i` the noise random. -/
def syntheticWritten (sig envSin rng : ℕ → ℚ) (i : ℕ) : ℚ :=
  max (-32767)
    (min 32767 ((sig i + (rng i - 1/2) * (1/10)) * (envSin i * (4/5) + 1/5) * 16383))

/-- `tts-web-audio` sample: `signal * envelope * volume * 16383` clamped,
with `envelope = sin(progress·π) * 0.8 + 0.2` and `volume` the raw
(unclamped) request option. -/
def webAudioWritten (sig envSin : ℕ → ℚ) (volume : ℚ) (i : ℕ) : ℚ :=
  max (-32767) (min 32767 (sig i * (envSin i * (4/5) + 1/5) * volume * 16383))

/-- `tts-simple` WAV sample: `Math.sin(2πf·t) * 16383`, written with no clamp. -/
def simpleWritten (sinv : ℕ → ℚ) (i : ℕ) : ℚ := sinv i * 16383

/-- `tts-base64` (`createRealisticAudio`) WAV sample:
`Math.sin(2πf·t) * 0.3 * 32767 * Math.exp(-t·0.5)`, written with no clamp. -/
def realisticWritten (sinv expv : ℕ → ℚ) (i : ℕ) : ℚ :=
  sinv i * (3/10) * 32767 * expv i

/-! ## Durations and sample counts -/

/-- `tts-binary`: `duration = min(textLength * 0.2, 60)`, 16 kHz. -/
def telegramSamples (text : String) : ℕ :=
  (jsFloor (16000 * min ((text.length : ℚ) * (1/5)) 60)).toNat

/-- `tts-web-audio`: `duration = min(text.length * 0.1, 30)`, 44.1 kHz. -/
def webAudioSamples (text : String) : ℕ :=
  (jsFloor (44100 * min ((text.length : ℚ) * (1/10)) 30)).toNat

/-- `tts-simple`: `duration = min(text.length * 0.1, 10)`, 8 kHz. -/
def simpleSamples (text : String) : ℕ :=
  (jsFloor (8000 * min ((text.length : ℚ) * (1/10)) 10)).toNat

/-- `tts-base64`: `duration = min(textLength * 0.15, 30)`, 22.05 kHz. -/
def realisticSamples (text : String) : ℕ :=
  (jsFloor (22050 * min ((text.length : ℚ) * (3/20)) 30)).toNat

mutual

/-- JavaScript `String.prototype.split(/\s+/)` on a char list: runs of
whitespace separate tokens, and a leading or trailing run contributes an
empty token, as in JS.  `splitWsGo` accumulates the current token;
`splitWsSkip` consumes the rest of a whitespace run. -/
def splitWsGo : List Char → List Char → List String
  | [], acc => [String.mk acc.reverse]
  | c :: rest, acc =>
    if c.isWhitespace then String.mk acc.reverse :: splitWsSkip rest
    else splitWsGo rest (c :: acc)

def splitWsSkip : List Char → List String
  | [] => [""]
  | c :: rest => if c.isWhitespace then splitWsSkip rest else splitWsGo rest [c]

end

/-- `text.split(/\s+/)`. -/
def jsSplitWs (s : String) : List String := splitWsGo s.toList []

/-- `tts-espeak`: `words = text.toLowerCase().split(/\s+/)`. -/
def syntheticWords (text : String) : List String := jsSplitWs text.toLower

/-- `tts-espeak`: `duration = min(words.length * 0.6 + 1, 30)`, 22.05 kHz. -/
def syntheticSamples (text : String) : ℕ :=
  (jsFloor (22050 * min (((syntheticWords text).length : ℚ) * (3/5) + 1) 30)).toNat

/-! ## WAV generators -/

/-- `generateSyntheticSpeech` of the eSpeak endpoint (`src/unnamed/part_002`). -/
def generateSyntheticSpeech (text : String) (sig envSin rng : ℕ → ℚ) : Buf :=
  wavBuffer 22050 (syntheticSamples text)
    (fun i => jsFloor (syntheticWritten sig envSin rng i))

/-- `generateAdvancedWAV` of `tts-web-audio` (samples and rate as computed by
its caller `generateWebAudioStyleBuffer`). -/
def generateAdvancedWAV (text : String) (sig envSin : ℕ → ℚ) (volume : ℚ) : Buf :=
  wavBuffer 44100 (webAudioSamples text)
    (fun i => jsFloor (webAudioWritten sig envSin volume i))

/-- `generateSimpleWAV` of `tts-simple`. -/
def generateSimpleWAV (text : String) (sinv : ℕ → ℚ) : Buf :=
  wavBuffer 8000 (simpleSamples text) (fun i => jsFloor (simpleWritten sinv i))

/-! ## MP3-shaped generators -/

/-- The `while (pos < mp3Size - 4)` frame loop of `tts-binary`'s MP3 branch:
write a frame header at `pos`, fill `buffer[pos+i]` for `i = 4..416` while
`pos + i < mp3Size` with `Math.floor(Math.random() * 256)`, advance by 417.
The loop is expressed with a fuel argument (one unit per iteration; the
callers pass `mp3Size`, far more than the `mp3Size / 417 + 1` iterations
the guard permits, so the fuel never runs out before the guard stops). -/
def telegramFrameLoop (rng : ℕ → ℚ) (size : ℕ) : Buf → ℕ → ℕ → Buf
  | b, _, 0 => b
  | b, pos, fuel + 1 =>
    if pos < size - 4 then
      let b1 := (((b.writeByte pos 0xff).writeByte (pos + 1) 0xfb).writeByte
        (pos + 2) 0x90).writeByte (pos + 3) 0x00
      let b2 := fillLoop b1 ((List.range' (pos + 4) 413).filter (fun o => decide (o < size)))
        (fun o => byteOf (rng o * 256))
      telegramFrameLoop rng size b2 (pos + 417) fuel
    else b

/-- `createTelegramCompatibleAudio` of `tts-binary`: WAV branch via
`wavBuffer`, MP3 branch: frame-sync bytes at 0, then `id3Header.copy(buffer, 0)`
overwrites offsets 0–9, then the frame loop from `pos = 10`. -/
def createTelegramCompatibleAudio (text format : String) (osc env rng : ℕ → ℚ) : Buf :=
  if format = "wav" then
    wavBuffer 16000 (telegramSamples text)
      (fun i => jsFloor (telegramWavWritten osc env rng i))
  else
    let mp3Size := max 2048 (text.length * 150)
    let b := Buf.alloc mp3Size
    let b := (((b.writeByte 0 0xff).writeByte 1 0xfb).writeByte 2 0x90).writeByte 3 0x00
    let b := b.writeList 0 [0x49, 0x44, 0x33, 0x03, 0x00, 0x00, 0x00, 0x00, 0x00, 0x00]
    telegramFrameLoop rng mp3Size b 10 mp3Size

/-- `text.charCodeAt(i) || 65`. -/
def charCodeOr65 (s : String) (i : ℕ) : ℕ :=
  let c := (s.toList.getD i (Char.ofNat 0)).toNat
  if c = 0 then 65 else c

/-- `generateSimpleMP3` of `tts-simple`: frame header at 0–3, then a fill
pattern `(char + i) % 256` from offset 4 on. -/
def generateSimpleMP3 (text : String) : Buf :=
  let size := max 1024 (text.length * 50)
  let b := Buf.alloc size
  let b := (((b.writeByte 0 0xff).writeByte 1 0xfb).writeByte 2 0x90).writeByte 3 0x00
  fillLoop b (List.range' 4 (size - 4))
    (fun i => (charCodeOr65 text (i % text.length) + i) % 256)

/-- `createRealMP3` duration: `min(textLength * 0.15, 30)`. -/
def realMp3Duration (text : String) : ℚ := min ((text.length : ℚ) * (3/20)) 30

/-- `createRealMP3` file size: `floor((bitrate * 1000 * duration) / 8) + 1024`. -/
def realMp3Size (text : String) : ℕ :=
  (jsFloor ((128 * 1000 * realMp3Duration text) / 8)).toNat + 1024

/-- The `for (frame = 0; frame < totalFrames && pos + frameSize < fileSize)`
loop of `createRealMP3`; the fuel is the remaining frame count
(`totalFrames - frame`), and the per-byte frame content (a `Math.sin`-based
pattern) is the oracle `fill`, indexed by absolute offset.  Returns the
buffer and the final `pos`. -/
def realFrameLoop (fill : ℕ → ℕ) (size : ℕ) : Buf → ℕ → ℕ → Buf × ℕ
  | b, pos, 0 => (b, pos)
  | b, pos, n + 1 =>
    if pos + 417 < size then
      let b1 := (((b.writeByte pos 0xff).writeByte (pos + 1) 0xfb).writeByte
        (pos + 2) 0x90).writeByte (pos + 3) 0x00
      let b2 := fillLoop b1 (List.range' (pos + 4) 413) fill
      realFrameLoop fill size b2 (pos + 417) n
    else (b, pos)

/-- `createRealMP3` of `tts-working`: ID3v2 header at 0–9, zero padding to
offset 128, MP3 frames from 128, then `buffer.subarray(0, pos)`. -/
def createRealMP3 (text : String) (fill : ℕ → ℕ) : Buf :=
  let size := realMp3Size text
  let b := Buf.alloc size
  let b := b.writeList 0 [0x49, 0x44, 0x33, 0x03, 0x00, 0x00, 0x00, 0x00, 0x00, 0x00]
  let b := fillLoop b (List.range' 10 118) (fun _ => 0)
  let r := realFrameLoop fill size b 128 ((size - 128) / 417)
  ⟨r.2, r.1.data⟩

/-- `createRealisticAudio` of the base64 TTS endpoint (`src/unnamed/part_005`):
WAV branch via `wavBuffer` at 22.05 kHz; MP3 branch: frame sync at 0–3
(left in place) and `Math.floor(Math.random() * 256)` fill from offset 4. -/
def createRealisticAudio (text format : String) (sinv expv rng : ℕ → ℚ) : Buf :=
  if format = "wav" then
    wavBuffer 22050 (realisticSamples text)
      (fun i => jsFloor (realisticWritten sinv expv i))
  else
    let mp3Size := max 1024 (text.length * 100)
    let b := Buf.alloc mp3Size
    let b := (((b.writeByte 0 0xff).writeByte 1 0xfb).writeByte 2 0x90).writeByte 3 0x00
    fillLoop b (List.range' 4 (mp3Size - 4)) (fun i => byteOf (rng i * 256))

/-! ## Frame-loop lemmas -/

theorem telegramFrameLoop_size (rng : ℕ → ℚ) (size : ℕ) :
    ∀ (fuel : ℕ) (b : Buf) (pos : ℕ),
      (telegramFrameLoop rng size b pos fuel).size = b.size := by
  intro fuel
  induction fuel with
  | zero => intro b pos; rfl
  | succ fuel ih =>
      intro b pos
      simp only [telegramFrameLoop]
      split
      · rw [ih]; simp
      · rfl

theorem telegramFrameLoop_data_lt (rng : ℕ → ℚ) (size : ℕ) :
    ∀ (fuel : ℕ) (b : Buf) (pos j : ℕ), j < pos →
      (telegramFrameLoop rng size b pos fuel).data j = b.data j := by
  intro fuel
  induction fuel with
  | zero => intro b pos j _; rfl
  | succ fuel ih =>
      intro b pos j hj
      simp only [telegramFrameLoop]
      split
      · rw [ih _ _ _ (by omega)]
        have hnot : j ∉ (List.range' (pos + 4) 413).filter (fun o => decide (o < size)) := by
          intro hm
          have h1 := (List.mem_filter.mp hm).1
          have h2 := List.mem_range'_1.mp h1
          omega
        rw [fillLoop_data, if_neg hnot, Buf.writeByte_data, if_neg (by omega),
          Buf.writeByte_data, if_neg (by omega), Buf.writeByte_data, if_neg (by omega),
          Buf.writeByte_data, if_neg (by omega)]
      · rfl

theorem telegramFrameLoop_sync (rng : ℕ → ℚ) (size fuel : ℕ) (b : Buf) (pos : ℕ)
    (h : pos < size - 4) (hf : 0 < fuel) :
    (telegramFrameLoop rng size b pos fuel).data pos = 0xff ∧
    (telegramFrameLoop rng size b pos fuel).data (pos + 1) = 0xfb := by
  cases fuel with
  | zero => omega
  | succ fuel =>
      simp only [telegramFrameLoop]
      rw [if_pos h]
      have hnot : ∀ j, j < pos + 4 →
          j ∉ (List.range' (pos + 4) 413).filter (fun o => decide (o < size)) := by
        intro j hj hm
        have h1 := (List.mem_filter.mp hm).1
        have h2 := List.mem_range'_1.mp h1
        omega
      constructor
      · rw [telegramFrameLoop_data_lt _ _ _ _ _ _ (by omega),
          fillLoop_data, if_neg (hnot _ (by omega)), Buf.writeByte_data,
          if_neg (by omega), Buf.writeByte_data, if_neg (by omega),
          Buf.writeByte_data, if_neg (by omega), Buf.writeByte_data, if_pos rfl]
      · rw [telegramFrameLoop_data_lt _ _ _ _ _ _ (by omega),
          fillLoop_data, if_neg (hnot _ (by omega)), Buf.writeByte_data,
          if_neg (by omega), Buf.writeByte_data, if_neg (by omega),
          Buf.writeByte_data, if_pos rfl]

theorem realFrameLoop_fst_size (fill : ℕ → ℕ) (size : ℕ) :
    ∀ (n : ℕ) (b : Buf) (pos : ℕ), (realFrameLoop fill size b pos n).1.size = b.size := by
  intro n
  induction n with
  | zero => intro b pos; rfl
  | succ n ih =>
      intro b pos
      simp only [realFrameLoop]
      split
      · rw [ih]; simp
      · rfl

theorem realFrameLoop_snd_ge (fill : ℕ → ℕ) (size : ℕ) :
    ∀ (n : ℕ) (b : Buf) (pos : ℕ), pos ≤ (realFrameLoop fill size b pos n).2 := by
  intro n
  induction n with
  | zero => intro b pos; exact le_refl _
  | succ n ih =>
      intro b pos
      simp only [realFrameLoop]
      split
      · exact le_trans (by omega) (ih _ (pos + 417))
      · exact le_refl _

theorem realFrameLoop_data_lt (fill : ℕ → ℕ) (size : ℕ) :
    ∀ (n : ℕ) (b : Buf) (pos j : ℕ), j < pos →
      (realFrameLoop fill size b pos n).1.data j = b.data j := by
  intro n
  induction n with
  | zero => intro b pos j _; rfl
  | succ n ih =>
      intro b pos j hj
      simp only [realFrameLoop]
      split
      · rw [ih _ _ _ (by omega)]
        have hnot : j ∉ List.range' (pos + 4) 413 := by
          intro hm
          have h2 := List.mem_range'_1.mp hm
          omega
        rw [fillLoop_data, if_neg hnot, Buf.writeByte_data, if_neg (by omega),
          Buf.writeByte_data, if_neg (by omega), Buf.writeByte_data, if_neg (by omega),
          Buf.writeByte_data, if_neg (by omega)]
      · rfl

theorem realFrameLoop_sync (fill : ℕ → ℕ) (size n : ℕ) (b : Buf) (pos : ℕ)
    (h : pos + 417 < size) (hn : 0 < n) :
    (realFrameLoop fill size b pos n).1.data pos = 0xff ∧
    (realFrameLoop fill size b pos n).1.data (pos + 1) = 0xfb := by
  cases n with
  | zero => omega
  | succ n =>
      simp only [realFrameLoop]
      rw [if_pos h]
      have hnot : ∀ j, j < pos + 4 → j ∉ List.range' (pos + 4) 413 := by
        intro j hj hm
        have h2 := List.mem_range'_1.mp hm
        omega
      constructor
      · rw [realFrameLoop_data_lt _ _ _ _ _ _ (by omega),
          fillLoop_data, if_neg (hnot _ (by omega)), Buf.writeByte_data,
          if_neg (by omega), Buf.writeByte_data, if_neg (by omega),
          Buf.writeByte_data, if_neg (by omega), Buf.writeByte_data, if_pos rfl]
      · rw [realFrameLoop_data_lt _ _ _ _ _ _ (by omega),
          fillLoop_data, if_neg (hnot _ (by omega)), Buf.writeByte_data,
          if_neg (by omega), Buf.writeByte_data, if_neg (by omega),
          Buf.writeByte_data, if_pos rfl]

theorem realFrameLoop_snd_advance (fill : ℕ → ℕ) (size n : ℕ) (b : Buf) (pos : ℕ)
    (h : pos + 417 < size) (hn : 0 < n) :
    pos + 417 ≤ (realFrameLoop fill size b pos n).2 := by
  cases n with
  | zero => omega
  | succ n =>
      simp only [realFrameLoop]
      rw [if_pos h]
      exact realFrameLoop_snd_ge ..

/-! ## MP3 header bytes of the three MP3-shaped generators -/

theorem telegramMp3_size (text : String) (osc env rng : ℕ → ℚ) :
    (createTelegramCompatibleAudio text "mp3" osc env rng).size =
      max 2048 (text.length * 150) := by
  simp only [createTelegramCompatibleAudio]
  rw [if_neg (by decide)]
  rw [telegramFrameLoop_size]
  simp

theorem telegramMp3_bytes (text : String) (osc env rng : ℕ → ℚ) :
    (createTelegramCompatibleAudio text "mp3" osc env rng).data 0 = 0x49 ∧
    (createTelegramCompatibleAudio text "mp3" osc env rng).data 1 = 0x44 ∧
    (createTelegramCompatibleAudio text "mp3" osc env rng).data 2 = 0x33 ∧
    (createTelegramCompatibleAudio text "mp3" osc env rng).data 10 = 0xff ∧
    (createTelegramCompatibleAudio text "mp3" osc env rng).data 11 = 0xfb := by
  simp only [createTelegramCompatibleAudio]
  rw [if_neg (by decide)]
  have hsz : (2048 : ℕ) ≤ max 2048 (text.length * 150) := le_max_left _ _
  have hguard : 10 < max 2048 (text.length * 150) - 4 := by omega
  have hfuel : 0 < max 2048 (text.length * 150) := by omega
  have hsync := telegramFrameLoop_sync rng (max 2048 (text.length * 150))
    (max 2048 (text.length * 150))
    ((((((Buf.alloc (max 2048 (text.length * 150))).writeByte 0 0xff).writeByte 1
      0xfb).writeByte 2 0x90).writeByte 3 0x00).writeList 0
      [0x49, 0x44, 0x33, 0x03, 0x00, 0x00, 0x00, 0x00, 0x00, 0x00]) 10 hguard hfuel
  refine ⟨?_, ?_, ?_, hsync.1, hsync.2⟩ <;>
  · rw [telegramFrameLoop_data_lt _ _ _ _ _ _ (by omega), Buf.writeList_data,
      if_pos (by simp)]
    simp

theorem simpleMp3_size (text : String) :
    (generateSimpleMP3 text).size = max 1024 (text.length * 50) := by
  simp [generateSimpleMP3]

theorem simpleMp3_bytes (text : String) :
    (generateSimpleMP3 text).data 0 = 0xff ∧ (generateSimpleMP3 text).data 1 = 0xfb := by
  simp only [generateSimpleMP3]
  have hnot : ∀ j, j < 4 → j ∉ List.range' 4 (max 1024 (text.length * 50) - 4) := by
    intro j hj hm
    have h2 := List.mem_range'_1.mp hm
    omega
  constructor <;>
  · rw [fillLoop_data, if_neg (hnot _ (by omega)), Buf.writeByte_data,
      if_neg (by omega), Buf.writeByte_data, if_neg (by omega)]
    first
      | rw [Buf.writeByte_data, if_neg (by omega), Buf.writeByte_data, if_pos rfl]
      | rw [Buf.writeByte_data, if_pos rfl]

theorem realMp3Size_ge (text : String) : 1024 ≤ realMp3Size text := by
  simp only [realMp3Size]
  omega

theorem realMp3_bytes (text : String) (fill : ℕ → ℕ) :
    (createRealMP3 text fill).data 0 = 0x49 ∧
    (createRealMP3 text fill).data 1 = 0x44 ∧
    (createRealMP3 text fill).data 2 = 0x33 ∧
    (createRealMP3 text fill).data 128 = 0xff ∧
    (createRealMP3 text fill).data 129 = 0xfb ∧
    545 ≤ (createRealMP3 text fill).size := by
  have hsz := realMp3Size_ge text
  simp only [createRealMP3]
  have hguard : 128 + 417 < realMp3Size text := by omega
  have hn : 0 < (realMp3Size text - 128) / 417 := by omega
  have hpad : ∀ j, j < 10 → j ∉ List.range' 10 118 := by
    intro j hj hm
    have h2 := List.mem_range'_1.mp hm
    omega
  have hsync := realFrameLoop_sync fill (realMp3Size text) ((realMp3Size text - 128) / 417)
    (fillLoop (((Buf.alloc (realMp3Size text)).writeList 0
      [0x49, 0x44, 0x33, 0x03, 0x00, 0x00, 0x00, 0x00, 0x00, 0x00]))
      (List.range' 10 118) (fun _ => 0)) 128 hguard hn
  have hadv := realFrameLoop_snd_advance fill (realMp3Size text) ((realMp3Size text - 128) / 417)
    (fillLoop (((Buf.alloc (realMp3Size text)).writeList 0
      [0x49, 0x44, 0x33, 0x03, 0x00, 0x00, 0x00, 0x00, 0x00, 0x00]))
      (List.range' 10 118) (fun _ => 0)) 128 hguard hn
  refine ⟨?_, ?_, ?_, hsync.1, hsync.2, by omega⟩ <;>
  · rw [realFrameLoop_data_lt _ _ _ _ _ _ (by omega), fillLoop_data,
      if_neg (hpad _ (by omega)), Buf.writeList_data, if_pos (by simp)]
    simp

theorem realisticMp3_size (text : String) (sinv expv rng : ℕ → ℚ) :
    (createRealisticAudio text "mp3" sinv expv rng).size =
      max 1024 (text.length * 100) := by
  simp only [createRealisticAudio]
  rw [if_neg (by decide)]
  simp

theorem realisticMp3_data4 (text : String) (sinv expv rng : ℕ → ℚ)
    (hlen : 4 < max 1024 (text.length * 100)) :
    (createRealisticAudio text "mp3" sinv expv rng).data 4 = byteOf (rng 4 * 256) := by
  simp only [createRealisticAudio]
  rw [if_neg (by decide)]
  rw [fillLoop_data, if_pos]
  exact List.mem_range'_1.mpr (by omega)

theorem realisticMp3_data_lt4 (text : String) (sinv expv rng : ℕ → ℚ) (j : ℕ)
    (hj : j < 4) :
    (createRealisticAudio text "mp3" sinv expv rng).data j =
      (if j = 3 then 0x00 else if j = 2 then 0x90 else if j = 1 then 0xfb else 0xff) := by
  simp only [createRealisticAudio]
  rw [if_neg (by decide)]
  have hnot : j ∉ List.range' 4 (max 1024 (text.length * 100) - 4) := by
    intro hm
    have h2 := List.mem_range'_1.mp hm
    omega
  rw [fillLoop_data, if_neg hnot]
  interval_cases j <;> simp [Buf.writeByte_data]

/-! ## Image placeholders and resolution parsing -/

/-- Split a char list at every `'x'` (the backbone of the
`^(\d+)x(\d+)$` resolution-literal match). -/
def splitXAux : List Char → List Char → List (List Char)
  | [], acc => [acc.reverse]
  | c :: rest, acc =>
    if c = 'x' then acc.reverse :: splitXAux rest [] else splitXAux rest (c :: acc)

/-- `Number.parseInt` on a digit string. -/
def digitsToNat (l : List Char) : ℕ :=
  l.foldl (fun acc c => acc * 10 + (c.toNat - 48)) 0

/-- The `resolution.match(/^(\d+)x(\d+)$/)` branch: exactly one `'x'`,
non-empty all-digit groups on both sides. -/
def parseWxH (s : String) : Option (ℕ × ℕ) :=
  match splitXAux s.toList [] with
  | [a, b] =>
    if a ≠ [] ∧ b ≠ [] ∧ a.all Char.isDigit ∧ b.all Char.isDigit then
      some (digitsToNat a, digitsToNat b)
    else none
  | _ => none

/-- `parseResolution` of `generate-image` (identical in
`generate-image-base64`): named presets, then the `WxH` literal, then the
`[1024, 1024]` default. -/
def parseResolution (s : String) : ℕ × ℕ :=
  if s = "square" then (1024, 1024)
  else if s = "landscape" then (1792, 1024)
  else if s = "portrait" then (1024, 1792)
  else if s = "instagram" then (1080, 1080)
  else if s = "instagram-story" then (1080, 1920)
  else if s = "youtube-thumbnail" then (1280, 720)
  else if s = "facebook-cover" then (1200, 630)
  else if s = "twitter-header" then (1500, 500)
  else (parseWxH s).getD (1024, 1024)

/-- The 8-byte PNG signature used by both placeholder generators. -/
def pngSignature : List ℕ := [0x89, 0x50, 0x4e, 0x47, 0x0d, 0x0a, 0x1a, 0x0a]

/-- The RGBA byte `createSimplePNG` stores at offset `o` of its pixel
buffer (`index = (y * width + x) * 4` plus the channel). -/
def pngPixel (width height o : ℕ) : ℕ :=
  let p := o / 4
  let x := p % width
  let y := p / width
  match o % 4 with
  | 0 => (jsFloor (100 + ((x : ℚ) / width) * 155)).toNat
  | 1 => (jsFloor (150 + ((y : ℚ) / height) * 105)).toNat
  | 2 => (jsFloor (200 + (((x : ℚ) + (y : ℚ)) / ((width : ℚ) + (height : ℚ))) * 55)).toNat
  | _ => 255

/-- `Buffer.concat([a, b])`. -/
def bufConcat (a b : Buf) : Buf :=
  ⟨a.size + b.size, fun i => if i < a.size then a.data i else b.data (i - a.size)⟩

/-- `buffer.subarray(0, n)`. -/
def Buf.takePrefix (b : Buf) (n : ℕ) : Buf := ⟨min b.size n, b.data⟩

/-- `createSimplePNG` of `generate-image`: the 8-byte PNG signature followed
by the raw RGBA gradient bytes, truncated at
`Math.min(pixelData.length, 50000)`.  No IHDR or any other PNG chunk is
emitted, so the buffer never encodes its pixel dimensions. -/
def createSimplePNG (width height : ℕ) : Buf :=
  let pixelData := fillLoop (Buf.alloc (width * height * 4))
    (List.range (width * height * 4)) (pngPixel width height)
  bufConcat ((Buf.alloc 8).writeList 0 pngSignature)
    (pixelData.takePrefix (min (width * height * 4) 50000))

/-- `generatePlaceholderImage` of `generate-image`: the canvas shim ignores
the prompt-derived gradient entirely and returns `createSimplePNG`. -/
def generatePlaceholderImage (prompt resolution : String) : Buf :=
  createSimplePNG (parseResolution resolution).1 (parseResolution resolution).2

/-- A two-color gradient, as returned by `getColorsFromPrompt` of
`generate-image-base64`. -/
structure GradColors where
  r1 : ℕ
  g1 : ℕ
  b1 : ℕ
  r2 : ℕ
  g2 : ℕ
  b2 : ℕ

/-- Does `needle` start `hay`? -/
def listPrefixOf : List Char → List Char → Bool
  | [], _ => true
  | _ :: _, [] => false
  | a :: as, b :: bs => a == b && listPrefixOf as bs

/-- Does `needle` occur contiguously inside `hay`? -/
def listInfixOf (needle : List Char) : List Char → Bool
  | [] => listPrefixOf needle []
  | c :: rest => listPrefixOf needle (c :: rest) || listInfixOf needle rest

/-- `prompt.includes(key)`. -/
def jsIncludes (s sub : String) : Bool := listInfixOf sub.toList s.toList

/-- `getColorsFromPrompt` of `generate-image-base64`. -/
def getColorsFromPromptB64 (prompt : String) : GradColors :=
  let p := prompt.toLower
  if jsIncludes p "sunset" || jsIncludes p "orange" then ⟨255, 107, 107, 254, 202, 87⟩
  else if jsIncludes p "ocean" || jsIncludes p "blue" then ⟨55, 66, 250, 112, 161, 255⟩
  else if jsIncludes p "forest" || jsIncludes p "green" then ⟨46, 213, 115, 123, 237, 159⟩
  else if jsIncludes p "purple" || jsIncludes p "magic" then ⟨108, 92, 231, 162, 155, 254⟩
  else ⟨108, 92, 231, 162, 155, 254⟩

/-- The gradient byte stored at offset `o` by the
`for (let i = 8; i < size; i += 4)` loop of `generatePlaceholderImage`
(base64 route); `o - o % 4` is the loop variable `i` and `progress = i / size`. -/
def b64PixelByte (c : GradColors) (size o : ℕ) : ℕ :=
  let progress : ℚ := ((o - o % 4 : ℕ) : ℚ) / size
  match o % 4 with
  | 0 => ((jsFloor ((c.r1 : ℚ) + ((c.r2 : ℚ) - (c.r1 : ℚ)) * progress)) % 256).toNat
  | 1 => ((jsFloor ((c.g1 : ℚ) + ((c.g2 : ℚ) - (c.g1 : ℚ)) * progress)) % 256).toNat
  | 2 => ((jsFloor ((c.b1 : ℚ) + ((c.b2 : ℚ) - (c.b1 : ℚ)) * progress)) % 256).toNat
  | _ => 255

/-- `generatePlaceholderImage` of `generate-image-base64`: a buffer of
`min(width * height * 4, 100000)` bytes, gradient-filled from offset 8,
with the PNG signature copied over offsets 0–7 at the end. -/
def generatePlaceholderImageB64 (prompt resolution : String) : Buf :=
  let wh := parseResolution resolution
  let size := min (wh.1 * wh.2 * 4) 100000
  let b := Buf.alloc size
  let b := fillLoop b (List.range' 8 (size - 8))
    (b64PixelByte (getColorsFromPromptB64 prompt) size)
  b.writeList 0 pngSignature

theorem createSimplePNG_size (width height : ℕ) :
    (createSimplePNG width height).size = 8 + min (width * height * 4) 50000 := by
  simp only [createSimplePNG, bufConcat, Buf.takePrefix]
  simp


theorem generatePlaceholderImageB64_size (prompt resolution : String) :
    (generatePlaceholderImageB64 prompt resolution).size =
      min ((parseResolution resolution).1 * (parseResolution resolution).2 * 4) 100000 := by
  simp [generatePlaceholderImageB64]

/-! ## HTTP responses, validation clamps, and the speech waterfalls -/

/-- The body of a modelled HTTP response. -/
inductive RespBody where
  /-- A binary media body. -/
  | media (b : List ℕ) : RespBody
  /-- A JSON error object `{ error: msg }`. -/
  | jsonErr (msg : String) : RespBody
  /-- The `/api/tts` success JSON: the clamped numeric options it echoes. -/
  | jsonCfg (rate pitch volume : ℚ) : RespBody
  /-- A JSON success envelope carrying a base64 payload. -/
  | jsonB64 (payload : List ℕ) : RespBody
deriving DecidableEq

/-- A modelled HTTP response. -/
structure Resp where
  status : ℕ
  body : RespBody
deriving DecidableEq

/-- `Math.max(0.1, Math.min(2, rate))`. -/
def clampRate (r : ℚ) : ℚ := max (1/10) (min 2 r)

/-- `Math.max(0, Math.min(2, pitch))`. -/
def clampPitch (p : ℚ) : ℚ := max 0 (min 2 p)

/-- `Math.max(0, Math.min(1, volume))`. -/
def clampVolume (v : ℚ) : ℚ := max 0 (min 1 v)

/-- One run's external-provider outcomes for `tts-real-voice`
(`generateActualSpeech` and `generateWithGTTS`): for each fetch, whether
`response.ok` held (a thrown fetch is `false`), the checked response
headers, and the body bytes. -/
structure SpeechEnv where
  /-- ResponsiveVoice: `response.ok`. -/
  rvOk : Bool
  /-- ResponsiveVoice: content-type includes `audio`. -/
  rvCtAudio : Bool
  /-- ResponsiveVoice body. -/
  rvBytes : List ℕ
  /-- VoiceRSS: `response.ok`. -/
  vrOk : Bool
  /-- VoiceRSS: content-type includes `audio`. -/
  vrCtAudio : Bool
  /-- VoiceRSS body. -/
  vrBytes : List ℕ
  /-- FreeTTS: `response.ok` (no content-type check in the source). -/
  ftOk : Bool
  /-- FreeTTS body. -/
  ftBytes : List ℕ
  /-- Text-to-MP3: `response.ok` of the JSON call. -/
  tmOk : Bool
  /-- Text-to-MP3: the JSON result carried a `URL`. -/
  tmHasURL : Bool
  /-- Text-to-MP3: `audioResponse.ok` of the follow-up fetch. -/
  tmFetchOk : Bool
  /-- Text-to-MP3 audio body (forwarded with no size check). -/
  tmBytes : List ℕ
  /-- Google Translate TTS: `response.ok`. -/
  gtOk : Bool
  /-- Google Translate TTS: content-type includes `audio`. -/
  gtCtAudio : Bool
  /-- Google Translate TTS body (forwarded with no size check). -/
  gtBytes : List ℕ

/-- `generateWithGTTS`: on success return the bytes, otherwise
`throw new Error("All TTS services are currently unavailable")`. -/
def generateWithGTTS (e : SpeechEnv) : Except String (List ℕ) :=
  if e.gtOk ∧ e.gtCtAudio then .ok e.gtBytes
  else .error "All TTS services are currently unavailable"

/-- The Text-to-MP3 attempt and everything after it. -/
def speechStageTm (e : SpeechEnv) : Except String (List ℕ) :=
  if e.tmOk ∧ e.tmHasURL ∧ e.tmFetchOk then .ok e.tmBytes else generateWithGTTS e

/-- The FreeTTS attempt (`response.ok && byteLength > 1000`) and everything
after it. -/
def speechStageFt (e : SpeechEnv) : Except String (List ℕ) :=
  if e.ftOk ∧ e.ftBytes.length > 1000 then .ok e.ftBytes else speechStageTm e

/-- The VoiceRSS attempt (`ok && audio content-type && byteLength > 1000`)
and everything after it. -/
def speechStageVr (e : SpeechEnv) : Except String (List ℕ) :=
  if e.vrOk ∧ e.vrCtAudio ∧ e.vrBytes.length > 1000 then .ok e.vrBytes
  else speechStageFt e

/-- `generateActualSpeech` of `tts-real-voice`: ResponsiveVoice, VoiceRSS,
FreeTTS, Text-to-MP3, then `generateWithGTTS`. -/
def generateActualSpeech (e : SpeechEnv) : Except String (List ℕ) :=
  if e.rvOk ∧ e.rvCtAudio ∧ e.rvBytes.length > 1000 then .ok e.rvBytes
  else speechStageVr e

/-- The `POST` handler of `tts-real-voice`: missing text ⇒ 400; a buffer
from the waterfall ⇒ 200 binary; a thrown exhaustion error ⇒ the catch
block's 500. -/
def ttsRealVoicePOST (e : SpeechEnv) (text : String) : Resp :=
  if text = "" then ⟨400, .jsonErr "Text is required"⟩
  else
    match generateActualSpeech e with
    | .ok b => ⟨200, .media b⟩
    | .error _ => ⟨500, .jsonErr "Voice generation failed"⟩

/-- Provider outcomes for the ElevenLabs-style endpoint
(`src/unnamed/part_001`). -/
structure ElevenEnv where
  /-- ElevenLabs call: `response.ok`. -/
  elOk : Bool
  /-- ElevenLabs body (returned with no size check). -/
  elBytes : List ℕ
  /-- ResponsiveVoice fallback: `response.ok`. -/
  faOk : Bool
  /-- ResponsiveVoice fallback body (returned with no size check). -/
  faBytes : List ℕ

/-- `generateFreeAlternative` of `part_001`: a working free fetch ⇒ 200
binary; otherwise the 503 "All TTS services unavailable" JSON error. -/
def generateFreeAlternative (e : ElevenEnv) : Resp :=
  if e.faOk then ⟨200, .media e.faBytes⟩
  else ⟨503, .jsonErr "All TTS services unavailable"⟩

/-- The `POST` handler of `part_001`: validation (missing text, > 5000
chars), the ElevenLabs call, then the free fallback. -/
def elevenPOST (e : ElevenEnv) (text : String) : Resp :=
  if text = "" then ⟨400, .jsonErr "Text is required and must be a string"⟩
  else if text.length > 5000 then ⟨400, .jsonErr "Text must be less than 5000 characters"⟩
  else if e.elOk then ⟨200, .media e.elBytes⟩
  else generateFreeAlternative e

/-- Outcome of the `espeak` process spawn in `src/unnamed/part_002`. -/
structure EspeakEnv where
  /-- The spawn succeeded with exit code 0 and the temp file was read. -/
  espeakWorks : Bool
  /-- The bytes read from the temp WAV file. -/
  espeakBytes : List ℕ

/-- `generateWithEspeak`: eSpeak's output if it ran, otherwise the local
`generateSyntheticSpeech` fallback. -/
def generateWithEspeak (e : EspeakEnv) (text : String) (sig envSin rng : ℕ → ℚ) : List ℕ :=
  if e.espeakWorks then e.espeakBytes
  else (generateSyntheticSpeech text sig envSin rng).bytes

/-- The `POST` handler of the eSpeak endpoint: the synthesis path never
throws, so any valid text yields a 200 with audio bytes. -/
def espeakPOST (e : EspeakEnv) (text : String) (sig envSin rng : ℕ → ℚ) : Resp :=
  if text = "" then ⟨400, .jsonErr "Text is required"⟩
  else ⟨200, .media (generateWithEspeak e text sig envSin rng)⟩

/-- The `POST` handler of `/api/tts`: validation, then a 200 JSON config
echoing the clamped rate/pitch/volume. -/
def ttsPOST (text : String) (rate pitch volume : ℚ) : Resp :=
  if text = "" then ⟨400, .jsonErr "Text is required and must be a string"⟩
  else if text.length > 5000 then ⟨400, .jsonErr "Text must be less than 5000 characters"⟩
  else ⟨200, .jsonCfg (clampRate rate) (clampPitch pitch) (clampVolume volume)⟩

/-- The `POST` handler of `/api/tts-binary`: validation and clamping, then
a 200 with `createTelegramCompatibleAudio` bytes (the generator receives
only the format; the clamped options are computed but unused by it). -/
def ttsBinaryPOST (text : String) (rate pitch volume : ℚ) (format : String)
    (osc env rng : ℕ → ℚ) : Resp :=
  if text = "" then ⟨400, .jsonErr "Text is required and must be a string"⟩
  else if text.length > 5000 then ⟨400, .jsonErr "Text must be less than 5000 characters"⟩
  else ⟨200, .media (createTelegramCompatibleAudio text format osc env rng).bytes⟩

/-! ## The image-generation waterfall -/

/-- The external image services of `generate-image`, in priority order. -/
inductive IProv where
  /-- OpenAI DALL-E. -/
  | openai
  /-- Stability AI. -/
  | stability
  /-- Replicate SDXL. -/
  | replicate
  /-- Hugging Face inference API. -/
  | huggingface
  /-- Pollinations AI. -/
  | pollinations
deriving DecidableEq

/-- One run's provider outcomes for `generateAIImage`. -/
structure ImgEnv where
  /-- `process.env.OPENAI_API_KEY` is set. -/
  openaiKey : Bool
  /-- OpenAI generation call: `response.ok` (and the JSON parsed with a URL). -/
  oaOk : Bool
  /-- OpenAI image download: `imageResponse.ok`. -/
  oaFetchOk : Bool
  /-- OpenAI image bytes. -/
  oaBytes : List ℕ
  /-- `process.env.STABILITY_API_KEY` is set. -/
  stabilityKey : Bool
  /-- Stability call: `response.ok` (and the base64 artifact decoded). -/
  stOk : Bool
  /-- Stability image bytes. -/
  stBytes : List ℕ
  /-- `process.env.REPLICATE_API_TOKEN` is set. -/
  replicateKey : Bool
  /-- Replicate prediction call: `response.ok`. -/
  repOk : Bool
  /-- Replicate poll loop finished in `succeeded` with an output URL. -/
  repSucceeded : Bool
  /-- Replicate output download: `imageResponse.ok`. -/
  repFetchOk : Bool
  /-- Replicate image bytes. -/
  repBytes : List ℕ
  /-- Hugging Face: `response.ok`. -/
  hfOk : Bool
  /-- Hugging Face body. -/
  hfBytes : List ℕ
  /-- Pollinations: `response.ok`. -/
  polOk : Bool
  /-- Pollinations: content-type includes `image`. -/
  polCtImage : Bool
  /-- Pollinations body (forwarded with no size check). -/
  polBytes : List ℕ

/-- The Pollinations attempt of `generateWithFreeService`, and the
placeholder the caller falls back to when the free-service helper throws. -/
def imgStagePol (e : ImgEnv) (prompt resolution : String) : List ℕ × List IProv :=
  if e.polOk ∧ e.polCtImage then (e.polBytes, [.pollinations])
  else ((generatePlaceholderImage prompt resolution).bytes, [.pollinations])

/-- The Hugging Face attempt (`ok && byteLength > 1000`) and everything
after it. -/
def imgStageHf (e : ImgEnv) (prompt resolution : String) : List ℕ × List IProv :=
  if e.hfOk ∧ e.hfBytes.length > 1000 then (e.hfBytes, [.huggingface])
  else ((imgStagePol e prompt resolution).1, .huggingface :: (imgStagePol e prompt resolution).2)

/-- The Replicate attempt (skipped entirely without a token) and everything
after it. -/
def imgStageRep (e : ImgEnv) (prompt resolution : String) : List ℕ × List IProv :=
  if e.replicateKey then
    if e.repOk ∧ e.repSucceeded ∧ e.repFetchOk then (e.repBytes, [.replicate])
    else ((imgStageHf e prompt resolution).1, .replicate :: (imgStageHf e prompt resolution).2)
  else imgStageHf e prompt resolution

/-- The Stability attempt (skipped entirely without a key) and everything
after it. -/
def imgStageSt (e : ImgEnv) (prompt resolution : String) : List ℕ × List IProv :=
  if e.stabilityKey then
    if e.stOk then (e.stBytes, [.stability])
    else ((imgStageRep e prompt resolution).1, .stability :: (imgStageRep e prompt resolution).2)
  else imgStageRep e prompt resolution

/-- `generateAIImage` of `generate-image`, paired with the ordered list of
providers actually invoked (a provider without its credential is skipped
without a network call and does not appear). -/
def generateAIImage (e : ImgEnv) (prompt resolution : String) : List ℕ × List IProv :=
  if e.openaiKey then
    if e.oaOk ∧ e.oaFetchOk then (e.oaBytes, [.openai])
    else ((imgStageSt e prompt resolution).1, .openai :: (imgStageSt e prompt resolution).2)
  else imgStageSt e prompt resolution

/-- The outcome of one provider's attempt, after its own checks, were it
reached: the bytes it would deliver, or `none` (also `none` when its
credential is missing). -/
def imgAttempt (e : ImgEnv) : IProv → Option (List ℕ)
  | .openai => if e.openaiKey ∧ e.oaOk ∧ e.oaFetchOk then some e.oaBytes else none
  | .stability => if e.stabilityKey ∧ e.stOk then some e.stBytes else none
  | .replicate =>
      if e.replicateKey ∧ e.repOk ∧ e.repSucceeded ∧ e.repFetchOk then some e.repBytes
      else none
  | .huggingface => if e.hfOk ∧ e.hfBytes.length > 1000 then some e.hfBytes else none
  | .pollinations => if e.polOk ∧ e.polCtImage then some e.polBytes else none

/-- Whether the provider would be invoked at all when reached (the
credential gate; the keyless free services are always invoked). -/
def imgGate (e : ImgEnv) : IProv → Bool
  | .openai => e.openaiKey
  | .stability => e.stabilityKey
  | .replicate => e.replicateKey
  | .huggingface => true
  | .pollinations => true

/-- The fixed priority order of `generateAIImage`. -/
def imgOrder : List IProv :=
  [.openai, .stability, .replicate, .huggingface, .pollinations]

/-- Specification-level invocation trace: walk the priority list, skip
ungated providers, stop at the first success. -/
def traceSpec (e : ImgEnv) : List IProv → List IProv
  | [] => []
  | p :: rest =>
    if imgGate e p then
      if (imgAttempt e p).isSome then [p] else p :: traceSpec e rest
    else traceSpec e rest

/-- Specification-level result: the first successful attempt in priority
order, if any. -/
def firstSuccessSpec (e : ImgEnv) (l : List IProv) : Option (List ℕ) :=
  (l.filterMap (imgAttempt e)).head?

/-- The `POST` handler of `generate-image`, paired with the providers
invoked: missing prompt or > 1000 chars ⇒ 400 before any generation. -/
def imgPOST (e : ImgEnv) (prompt resolution : String) : Resp × List IProv :=
  if prompt = "" then (⟨400, .jsonErr "Prompt is required and must be a string"⟩, [])
  else if prompt.length > 1000 then
    (⟨400, .jsonErr "Prompt must be less than 1000 characters"⟩, [])
  else
    ((⟨200, .media (generateAIImage e prompt resolution).1⟩ : Resp),
      (generateAIImage e prompt resolution).2)

/-- The simplified `generateAIImage` of `generate-image-base64`: a single
Pollinations attempt, then the gradient placeholder. -/
def generateAIImageB64 (e : ImgEnv) (prompt resolution : String) : List ℕ × List IProv :=
  if e.polOk ∧ e.polCtImage then (e.polBytes, [.pollinations])
  else ((generatePlaceholderImageB64 prompt resolution).bytes, [.pollinations])

/-- The `POST` handler of `generate-image-base64`, paired with the
providers invoked.  It checks only that the prompt is a non-empty string:
there is no maximum-length check in this route. -/
def imgB64POST (e : ImgEnv) (prompt resolution : String) : Resp × List IProv :=
  if prompt = "" then (⟨400, .jsonErr "Prompt is required and must be a string"⟩, [])
  else
    ((⟨200, .jsonB64 (generateAIImageB64 e prompt resolution).1⟩ : Resp),
      (generateAIImageB64 e prompt resolution).2)

/-! ## Waterfall refinement lemmas -/

theorem imgStagePol_spec (e : ImgEnv) (prompt resolution : String) :
    imgStagePol e prompt resolution =
      ((firstSuccessSpec e [.pollinations]).getD
        (generatePlaceholderImage prompt resolution).bytes,
       traceSpec e [.pollinations]) := by
  by_cases h : e.polOk ∧ e.polCtImage <;>
    simp [imgStagePol, firstSuccessSpec, traceSpec, imgAttempt, imgGate, h]

theorem imgStageHf_spec (e : ImgEnv) (prompt resolution : String) :
    imgStageHf e prompt resolution =
      ((firstSuccessSpec e [.huggingface, .pollinations]).getD
        (generatePlaceholderImage prompt resolution).bytes,
       traceSpec e [.huggingface, .pollinations]) := by
  by_cases h : e.hfOk ∧ e.hfBytes.length > 1000
  · simp [imgStageHf, firstSuccessSpec, traceSpec, imgAttempt, imgGate, h]
  · rw [imgStageHf, if_neg h, imgStagePol_spec]
    simp only [firstSuccessSpec, traceSpec, imgGate, List.filterMap_cons]
    rw [show imgAttempt e .huggingface = none by simp [imgAttempt, h]]
    simp [traceSpec]

theorem imgStageRep_spec (e : ImgEnv) (prompt resolution : String) :
    imgStageRep e prompt resolution =
      ((firstSuccessSpec e [.replicate, .huggingface, .pollinations]).getD
        (generatePlaceholderImage prompt resolution).bytes,
       traceSpec e [.replicate, .huggingface, .pollinations]) := by
  by_cases hk : e.replicateKey
  · by_cases h : e.repOk ∧ e.repSucceeded ∧ e.repFetchOk
    · simp [imgStageRep, firstSuccessSpec, traceSpec, imgAttempt, imgGate, hk, h]
    · rw [imgStageRep, if_pos hk, if_neg h, imgStageHf_spec]
      simp only [firstSuccessSpec, traceSpec, imgGate, List.filterMap_cons]
      rw [show imgAttempt e .replicate = none by
        simp only [imgAttempt]
        rw [if_neg (by tauto)]]
      simp [traceSpec, imgGate, hk]
  · rw [imgStageRep, if_neg hk, imgStageHf_spec]
    simp only [firstSuccessSpec, traceSpec, imgGate, List.filterMap_cons]
    rw [show imgAttempt e .replicate = none by
      simp only [imgAttempt]
      rw [if_neg (by tauto)]]
    simp [traceSpec, imgGate, hk]

theorem imgStageSt_spec (e : ImgEnv) (prompt resolution : String) :
    imgStageSt e prompt resolution =
      ((firstSuccessSpec e [.stability, .replicate, .huggingface, .pollinations]).getD
        (generatePlaceholderImage prompt resolution).bytes,
       traceSpec e [.stability, .replicate, .huggingface, .pollinations]) := by
  by_cases hk : e.stabilityKey
  · by_cases h : e.stOk
    · simp [imgStageSt, firstSuccessSpec, traceSpec, imgAttempt, imgGate, hk, h]
    · rw [imgStageSt, if_pos hk, if_neg (by simpa using h), imgStageRep_spec]
      simp only [firstSuccessSpec, traceSpec, imgGate, List.filterMap_cons]
      rw [show imgAttempt e .stability = none by
        simp only [imgAttempt]
        rw [if_neg (by tauto)]]
      simp [traceSpec, imgGate, hk]
  · rw [imgStageSt, if_neg hk, imgStageRep_spec]
    simp only [firstSuccessSpec, traceSpec, imgGate, List.filterMap_cons]
    rw [show imgAttempt e .stability = none by
      simp only [imgAttempt]
      rw [if_neg (by tauto)]]
    simp [traceSpec, imgGate, hk]

theorem generateAIImage_spec (e : ImgEnv) (prompt resolution : String) :
    generateAIImage e prompt resolution =
      ((firstSuccessSpec e imgOrder).getD
        (generatePlaceholderImage prompt resolution).bytes,
       traceSpec e imgOrder) := by
  by_cases hk : e.openaiKey
  · by_cases h : e.oaOk ∧ e.oaFetchOk
    · simp [generateAIImage, imgOrder, firstSuccessSpec, traceSpec, imgAttempt,
        imgGate, hk, h]
    · rw [generateAIImage, if_pos hk, if_neg h, imgStageSt_spec]
      simp only [imgOrder, firstSuccessSpec, traceSpec, imgGate, List.filterMap_cons]
      rw [show imgAttempt e .openai = none by
        simp only [imgAttempt]
        rw [if_neg (by tauto)]]
      simp [traceSpec, imgGate, hk]
  · rw [generateAIImage, if_neg hk, imgStageSt_spec]
    simp only [imgOrder, firstSuccessSpec, traceSpec, imgGate, List.filterMap_cons]
    rw [show imgAttempt e .openai = none by
      simp only [imgAttempt]
      rw [if_neg (by tauto)]]
    simp [traceSpec, imgGate, hk]

/-- The invocation trace is always a subsequence of the priority order. -/
theorem traceSpec_sublist (e : ImgEnv) : ∀ l : List IProv, (traceSpec e l).Sublist l := by
  intro l
  induction l with
  | nil => simp [traceSpec]
  | cons p rest ih =>
      simp only [traceSpec]
      by_cases hg : imgGate e p
      · rw [if_pos hg]
        by_cases hs : (imgAttempt e p).isSome
        · rw [if_pos hs]
          exact (List.nil_sublist rest).cons₂ p
        · rw [if_neg hs]
          exact ih.cons₂ p
      · rw [if_neg hg]
        exact ih.cons p

/-! ## Speech-stage facts -/

theorem generateActualSpeech_smallRv (e : SpeechEnv) (h1 : e.rvOk = true)
    (h2 : e.rvCtAudio = true) (h3 : e.rvBytes.length ≤ 1000) :
    generateActualSpeech e = speechStageVr e := by
  rw [generateActualSpeech, if_neg]
  rintro ⟨-, -, h⟩
  omega

theorem speechStageVr_smallVr (e : SpeechEnv) (h1 : e.vrOk = true)
    (h2 : e.vrCtAudio = true) (h3 : e.vrBytes.length ≤ 1000) :
    speechStageVr e = speechStageFt e := by
  rw [speechStageVr, if_neg]
  rintro ⟨-, -, h⟩
  omega

theorem speechStageFt_smallFt (e : SpeechEnv) (h1 : e.ftOk = true)
    (h3 : e.ftBytes.length ≤ 1000) :
    speechStageFt e = speechStageTm e := by
  rw [speechStageFt, if_neg]
  rintro ⟨-, h⟩
  omega

theorem speechStageTm_forwards (e : SpeechEnv) (h1 : e.tmOk = true)
    (h2 : e.tmHasURL = true) (h3 : e.tmFetchOk = true) :
    speechStageTm e = .ok e.tmBytes := by
  rw [speechStageTm, if_pos]
  exact ⟨by simp [h1], by simp [h2], by simp [h3]⟩

theorem imgStageHf_smallHf (e : ImgEnv) (prompt resolution : String)
    (h3 : e.hfBytes.length ≤ 1000) :
    imgStageHf e prompt resolution =
      ((imgStagePol e prompt resolution).1,
        .huggingface :: (imgStagePol e prompt resolution).2) := by
  rw [imgStageHf, if_neg]
  rintro ⟨-, h⟩
  omega

/-! ## Sample-count bounds and aggregated header facts -/

theorem telegramSamples_le (text : String) : telegramSamples text ≤ 960000 := by
  apply jsFloorToNat_le
  have h := min_le_right ((text.length : ℚ) * (1/5)) (60 : ℚ)
  push_cast
  linarith

theorem syntheticSamples_le (text : String) : syntheticSamples text ≤ 661500 := by
  apply jsFloorToNat_le
  have h := min_le_right (((syntheticWords text).length : ℚ) * (3/5) + 1) (30 : ℚ)
  push_cast
  linarith

theorem webAudioSamples_le (text : String) : webAudioSamples text ≤ 1323000 := by
  apply jsFloorToNat_le
  have h := min_le_right ((text.length : ℚ) * (1/10)) (30 : ℚ)
  push_cast
  linarith

theorem wavHeaderProps (r s : ℕ) (vals : ℕ → ℤ) (hr : r < 4294967296)
    (hs : s ≤ 2000000) :
    (wavBuffer r s vals).data 0 = 82 ∧ (wavBuffer r s vals).data 1 = 73 ∧
    (wavBuffer r s vals).data 2 = 70 ∧ (wavBuffer r s vals).data 3 = 70 ∧
    (wavBuffer r s vals).data 8 = 87 ∧ (wavBuffer r s vals).data 9 = 65 ∧
    (wavBuffer r s vals).data 10 = 86 ∧ (wavBuffer r s vals).data 11 = 69 ∧
    readU32LE (wavBuffer r s vals) 4 = 36 + ((wavBuffer r s vals).size - 44) ∧
    readU32LE (wavBuffer r s vals) 24 = r := by
  obtain ⟨d0, d1, d2, d3, d8, d9, d10, d11, -⟩ := wavBuffer_header_bytes r s vals
  refine ⟨d0, d1, d2, d3, d8, d9, d10, d11, ?_, ?_⟩
  · rw [wavBuffer_chunkSize r s vals (by omega), wavBuffer_size]
    omega
  · exact wavBuffer_sampleRateField r s vals hr

theorem Buf.bytes_getD (b : Buf) (i d : ℕ) (h : i < b.size) :
    b.bytes.getD i d = b.data i := by
  rw [Buf.bytes, List.getD_eq_getElem?_getD, List.getElem?_map, List.getElem?_range h]
  rfl

/-! ## Clamp facts -/

theorem clampRate_of_mem (r : ℚ) (h1 : 1/10 ≤ r) (h2 : r ≤ 2) : clampRate r = r := by
  rw [clampRate, min_eq_right h2, max_eq_right h1]

theorem clampRate_of_hi (r : ℚ) (h : 2 < r) : clampRate r = 2 := by
  rw [clampRate, min_eq_left h.le, max_eq_right]
  norm_num

theorem clampRate_of_lo (r : ℚ) (h : r < 1/10) : clampRate r = 1/10 := by
  rw [clampRate, max_eq_left]
  exact le_trans (min_le_right _ _) h.le

theorem clampPitch_of_mem (p : ℚ) (h1 : 0 ≤ p) (h2 : p ≤ 2) : clampPitch p = p := by
  rw [clampPitch, min_eq_right h2, max_eq_right h1]

theorem clampPitch_of_hi (p : ℚ) (h : 2 < p) : clampPitch p = 2 := by
  rw [clampPitch, min_eq_left h.le, max_eq_right]
  norm_num

theorem clampVolume_of_mem (v : ℚ) (h1 : 0 ≤ v) (h2 : v ≤ 1) : clampVolume v = v := by
  rw [clampVolume, min_eq_right h2, max_eq_right h1]

theorem clampVolume_of_hi (v : ℚ) (h : 1 < v) : clampVolume v = 1 := by
  rw [clampVolume, min_eq_left h.le, max_eq_right]
  norm_num

/-! ## Concrete inputs used by witnesses and counterexamples -/

/-- An oracle valuation that is identically `0`. -/
def zeroOracle : ℕ → ℚ := fun _ => 0

/-- An oracle valuation that is identically `1/2` (a different
`Math.random()` stream). -/
def halfOracle : ℕ → ℚ := fun _ => 1/2

/-- A run in which every external speech fetch failed. -/
def allFailSpeechEnv : SpeechEnv :=
  ⟨false, false, [], false, false, [], false, [], false, false, false, [], false, false, []⟩

/-- A run in which the ElevenLabs call and the free fallback both failed. -/
def allFailElevenEnv : ElevenEnv := ⟨false, [], false, []⟩

/-- A run in which the `espeak` binary is unavailable. -/
def noEspeakEnv : EspeakEnv := ⟨false, []⟩

/-- A run in which no image provider is configured or reachable. -/
def noProviderImgEnv : ImgEnv :=
  ⟨false, false, false, [], false, false, [], false, false, false, false, [],
    false, [], false, false, []⟩

/-- A 10-byte body: HTTP 200 but far below the `> 1000` plausibility bar. -/
def c8SmallBody : List ℕ := List.replicate 10 0

/-- A run where ResponsiveVoice, VoiceRSS and FreeTTS fail outright and the
Text-to-MP3 service answers 200 with a 10-byte body. -/
def c8Env : SpeechEnv :=
  ⟨false, false, [], false, false, [], false, [], true, true, true, c8SmallBody,
    false, false, []⟩

/-- A run where every size-checked provider returns 200 with the 10-byte
body and the unchecked Text-to-MP3 service also returns it. -/
def c8SmallEnv : SpeechEnv :=
  ⟨true, true, c8SmallBody, true, true, c8SmallBody, true, c8SmallBody,
    true, true, true, c8SmallBody, false, false, []⟩

/-- An image run where Hugging Face answers 200 with the 10-byte body and
Pollinations succeeds with a large one. -/
def c8ImgEnv : ImgEnv :=
  ⟨false, false, false, [], false, false, [], false, false, false, false, [],
    true, c8SmallBody, true, true, List.replicate 2000 7⟩

/-- A 1001-character prompt (over the documented 1000-character limit). -/
def longPrompt : String := String.mk (List.replicate 1001 'a')

/-- A 5001-character text (over the documented 5000-character limit). -/
def longText : String := String.mk (List.replicate 5001 'a')

/-! ## The claims -/

/-- **C2.** For every image-generation request, `generateAIImage` attempts
its providers strictly in the fixed priority order (paid providers first,
then the free services, then the local placeholder): its result is the
first provider outcome that passes that provider's checks (falling back to
the placeholder bytes when none does), its invocation trace is exactly the
specification trace that walks the priority list, skips credential-less
paid providers, and stops at the first success — so no provider after a
successful one is ever invoked — and the trace is a subsequence of the
priority order. -/
theorem c2_provider_waterfall_order (e : ImgEnv) (prompt resolution : String) :
    (generateAIImage e prompt resolution).1 =
      (firstSuccessSpec e imgOrder).getD (generatePlaceholderImage prompt resolution).bytes ∧
    (generateAIImage e prompt resolution).2 = traceSpec e imgOrder ∧
    ((generateAIImage e prompt resolution).2).Sublist imgOrder := by
  have h := generateAIImage_spec e prompt resolution
  refine ⟨?_, ?_, ?_⟩
  · rw [h]
  · rw [h]
  · rw [h]
    exact traceSpec_sublist e imgOrder

/-- **C3.** For every input text (and any transcendental-oracle valuation),
each of the three synthesized WAV buffers — `createTelegramCompatibleAudio`
(wav branch, 16 kHz), `generateSyntheticSpeech` (22.05 kHz) and
`generateAdvancedWAV` (44.1 kHz) — has bytes 0–3 = "RIFF", bytes 8–11 =
"WAVE", the little-endian 32-bit field at offset 4 equal to 36 plus the
number of data bytes (`size - 44`), and the little-endian 32-bit field at
offset 24 equal to the generator's configured sample rate. -/
theorem c3_wav_header_invariant (text : String) (osc env rng sig envSin : ℕ → ℚ)
    (volume : ℚ) :
    ((createTelegramCompatibleAudio text "wav" osc env rng).data 0 = 82 ∧
     (createTelegramCompatibleAudio text "wav" osc env rng).data 1 = 73 ∧
     (createTelegramCompatibleAudio text "wav" osc env rng).data 2 = 70 ∧
     (createTelegramCompatibleAudio text "wav" osc env rng).data 3 = 70 ∧
     (createTelegramCompatibleAudio text "wav" osc env rng).data 8 = 87 ∧
     (createTelegramCompatibleAudio text "wav" osc env rng).data 9 = 65 ∧
     (createTelegramCompatibleAudio text "wav" osc env rng).data 10 = 86 ∧
     (createTelegramCompatibleAudio text "wav" osc env rng).data 11 = 69 ∧
     readU32LE (createTelegramCompatibleAudio text "wav" osc env rng) 4 =
       36 + ((createTelegramCompatibleAudio text "wav" osc env rng).size - 44) ∧
     readU32LE (createTelegramCompatibleAudio text "wav" osc env rng) 24 = 16000) ∧
    ((generateSyntheticSpeech text sig envSin rng).data 0 = 82 ∧
     (generateSyntheticSpeech text sig envSin rng).data 1 = 73 ∧
     (generateSyntheticSpeech text sig envSin rng).data 2 = 70 ∧
     (generateSyntheticSpeech text sig envSin rng).data 3 = 70 ∧
     (generateSyntheticSpeech text sig envSin rng).data 8 = 87 ∧
     (generateSyntheticSpeech text sig envSin rng).data 9 = 65 ∧
     (generateSyntheticSpeech text sig envSin rng).data 10 = 86 ∧
     (generateSyntheticSpeech text sig envSin rng).data 11 = 69 ∧
     readU32LE (generateSyntheticSpeech text sig envSin rng) 4 =
       36 + ((generateSyntheticSpeech text sig envSin rng).size - 44) ∧
     readU32LE (generateSyntheticSpeech text sig envSin rng) 24 = 22050) ∧
    ((generateAdvancedWAV text sig envSin volume).data 0 = 82 ∧
     (generateAdvancedWAV text sig envSin volume).data 1 = 73 ∧
     (generateAdvancedWAV text sig envSin volume).data 2 = 70 ∧
     (generateAdvancedWAV text sig envSin volume).data 3 = 70 ∧
     (generateAdvancedWAV text sig envSin volume).data 8 = 87 ∧
     (generateAdvancedWAV text sig envSin volume).data 9 = 65 ∧
     (generateAdvancedWAV text sig envSin volume).data 10 = 86 ∧
     (generateAdvancedWAV text sig envSin volume).data 11 = 69 ∧
     readU32LE (generateAdvancedWAV text sig envSin volume) 4 =
       36 + ((generateAdvancedWAV text sig envSin volume).size - 44) ∧
     readU32LE (generateAdvancedWAV text sig envSin volume) 24 = 44100) := by
  have e1 : createTelegramCompatibleAudio text "wav" osc env rng =
      wavBuffer 16000 (telegramSamples text)
        (fun i => jsFloor (telegramWavWritten osc env rng i)) := by
    rw [createTelegramCompatibleAudio, if_pos rfl]
  rw [e1, generateSyntheticSpeech, generateAdvancedWAV]
  exact ⟨wavHeaderProps 16000 (telegramSamples text) _ (by norm_num)
      (le_trans (telegramSamples_le text) (by norm_num)),
    wavHeaderProps 22050 (syntheticSamples text) _ (by norm_num)
      (le_trans (syntheticSamples_le text) (by norm_num)),
    wavHeaderProps 44100 (webAudioSamples text) _ (by norm_num)
      (le_trans (webAudioSamples_le text) (by norm_num))⟩

/-- **C7.** Validation clamps rather than rejects numeric options: for
rate, pitch, volume already inside `[0.1, 2]`, `[0, 2]`, `[0, 1]` the
clamps return them unchanged; for an out-of-range value they return the
nearest bound (rate 5 becomes 2); and a valid request with any rate, pitch
and volume proceeds to a 200 response echoing the clamped values rather
than being rejected. -/
theorem c7_clamping (rIn rHi rLo pIn pHi vIn vHi rate pitch volume : ℚ) (text : String)
    (h1 : 1/10 ≤ rIn) (h2 : rIn ≤ 2) (h3 : 2 < rHi) (h4 : rLo < 1/10)
    (h5 : 0 ≤ pIn) (h6 : pIn ≤ 2) (h7 : 2 < pHi)
    (h8 : 0 ≤ vIn) (h9 : vIn ≤ 1) (h10 : 1 < vHi)
    (htext : text ≠ "") (hlen : text.length ≤ 5000) :
    clampRate rIn = rIn ∧ clampRate rHi = 2 ∧ clampRate rLo = 1/10 ∧
    clampPitch pIn = pIn ∧ clampPitch pHi = 2 ∧
    clampVolume vIn = vIn ∧ clampVolume vHi = 1 ∧
    ttsPOST text rate pitch volume =
      ⟨200, .jsonCfg (clampRate rate) (clampPitch pitch) (clampVolume volume)⟩ := by
  refine ⟨clampRate_of_mem _ h1 h2, clampRate_of_hi _ h3, clampRate_of_lo _ h4,
    clampPitch_of_mem _ h5 h6, clampPitch_of_hi _ h7,
    clampVolume_of_mem _ h8 h9, clampVolume_of_hi _ h10, ?_⟩
  rw [ttsPOST, if_neg htext, if_neg (by omega)]

/-- Witness for C7 at rate 1 / 5 / 0, pitch 1 / 3, volume 1/2 / 2 and the
request `{text: "Hello", rate: 5}`. -/
theorem c7_clamping_witness :
    clampRate 1 = 1 ∧ clampRate 5 = 2 ∧ clampRate 0 = 1/10 ∧
    clampPitch 1 = 1 ∧ clampPitch 3 = 2 ∧
    clampVolume (1/2) = 1/2 ∧ clampVolume 2 = 1 ∧
    ttsPOST "Hello" 5 1 1 =
      ⟨200, .jsonCfg (clampRate 5) (clampPitch 1) (clampVolume 1)⟩ :=
  c7_clamping 1 5 0 1 3 (1/2) 2 5 1 1 "Hello" (by norm_num) (by norm_num)
    (by norm_num) (by norm_num) (by norm_num) (by norm_num) (by norm_num)
    (by norm_num) (by norm_num) (by norm_num) (by decide) (by decide)

/-- **C10.** Every 16-bit sample value handed to `writeInt16LE` by the
synthesized-WAV data loops lies in `[-32767, 32767]`: the three clamped
generators (`tts-binary`, `generateSyntheticSpeech`, `generateAdvancedWAV`)
unconditionally — for any oracle values and any unclamped volume — and the
unclamped `generateSimpleWAV` because its sine factor is bounded by 1. -/
theorem c10_sample_range (osc env rng sig envSin sinv : ℕ → ℚ) (volume : ℚ) (i : ℕ)
    (hsin : ∀ j, |sinv j| ≤ 1) :
    (-32767 ≤ telegramWavWritten osc env rng i ∧
      telegramWavWritten osc env rng i ≤ 32767) ∧
    (-32767 ≤ syntheticWritten sig envSin rng i ∧
      syntheticWritten sig envSin rng i ≤ 32767) ∧
    (-32767 ≤ webAudioWritten sig envSin volume i ∧
      webAudioWritten sig envSin volume i ≤ 32767) ∧
    (-32767 ≤ simpleWritten sinv i ∧ simpleWritten sinv i ≤ 32767) := by
  refine ⟨?_, ?_, ?_, ?_⟩
  · rw [telegramWavWritten]
    exact ⟨le_max_left _ _, max_le (by norm_num) (min_le_left _ _)⟩
  · rw [syntheticWritten]
    exact ⟨le_max_left _ _, max_le (by norm_num) (min_le_left _ _)⟩
  · rw [webAudioWritten]
    exact ⟨le_max_left _ _, max_le (by norm_num) (min_le_left _ _)⟩
  · have h := abs_le.mp (hsin i)
    rw [simpleWritten]
    constructor <;> nlinarith [h.1, h.2]

/-- Witness for C10 at the all-zero oracle valuation and sample 0. -/
theorem c10_sample_range_witness :
    (∀ j : ℕ, |zeroOracle j| ≤ 1) ∧
    (-32767 ≤ simpleWritten zeroOracle 0 ∧ simpleWritten zeroOracle 0 ≤ 32767) := by
  have hz : ∀ j : ℕ, |zeroOracle j| ≤ 1 := by
    intro j
    norm_num [zeroOracle]
  exact ⟨hz, (c10_sample_range zeroOracle zeroOracle zeroOracle zeroOracle
    zeroOracle zeroOracle 0 0 hz).2.2.2⟩

/-- **C1 (amended).** When every external provider fails, the behaviour
depends on the endpoint: `tts-real-voice` surfaces exhaustion as an HTTP
500 error (its last resort `generateWithGTTS` throws instead of
synthesizing), the ElevenLabs-style endpoint returns an HTTP 503 JSON
error, and only endpoints whose cascade ends in a local synthesizer — such
as the eSpeak endpoint falling back to `generateSyntheticSpeech` — return
a normal 200 response with synthesized bytes. -/
theorem c1_exhaustion_behavior (e : SpeechEnv) (ee : ElevenEnv) (es : EspeakEnv)
    (text : String) (sig envSin rng : ℕ → ℚ)
    (h1 : e.rvOk = false) (h2 : e.vrOk = false) (h3 : e.ftOk = false)
    (h4 : e.tmOk = false) (h5 : e.gtOk = false)
    (h6 : ee.elOk = false) (h7 : ee.faOk = false)
    (h8 : es.espeakWorks = false)
    (htext : text ≠ "") (hlen : text.length ≤ 5000) :
    ttsRealVoicePOST e text = ⟨500, .jsonErr "Voice generation failed"⟩ ∧
    elevenPOST ee text = ⟨503, .jsonErr "All TTS services unavailable"⟩ ∧
    espeakPOST es text sig envSin rng =
      ⟨200, .media (generateSyntheticSpeech text sig envSin rng).bytes⟩ := by
  refine ⟨?_, ?_, ?_⟩
  · rw [ttsRealVoicePOST, if_neg htext]
    have hgen : generateActualSpeech e =
        .error "All TTS services are currently unavailable" := by
      rw [generateActualSpeech, if_neg (by simp [h1]), speechStageVr,
        if_neg (by simp [h2]), speechStageFt, if_neg (by simp [h3]),
        speechStageTm, if_neg (by simp [h4]), generateWithGTTS,
        if_neg (by simp [h5])]
    rw [hgen]
  · rw [elevenPOST, if_neg htext, if_neg (by omega), if_neg (by simp [h6]),
      generateFreeAlternative, if_neg (by simp [h7])]
  · rw [espeakPOST, if_neg htext, generateWithEspeak, if_neg (by simp [h8])]

/-- Witness for C1's amended statement at the all-fail environments and the
request `{text: "Hello world"}`. -/
theorem c1_exhaustion_behavior_witness :
    ttsRealVoicePOST allFailSpeechEnv "Hello world" =
      ⟨500, .jsonErr "Voice generation failed"⟩ ∧
    elevenPOST allFailElevenEnv "Hello world" =
      ⟨503, .jsonErr "All TTS services unavailable"⟩ ∧
    espeakPOST noEspeakEnv "Hello world" zeroOracle zeroOracle zeroOracle =
      ⟨200, .media (generateSyntheticSpeech "Hello world" zeroOracle zeroOracle
        zeroOracle).bytes⟩ :=
  c1_exhaustion_behavior allFailSpeechEnv allFailElevenEnv noEspeakEnv "Hello world"
    zeroOracle zeroOracle zeroOracle rfl rfl rfl rfl rfl rfl rfl rfl
    (by decide) (by decide)

/-- Counterexample to C1 as stated: with the valid text `"Hello world"` and
every provider failing, `tts-real-voice` answers with an HTTP 500 error —
exhaustion is surfaced to the caller, and no synthesized bytes are
returned. -/
theorem c1_exhaustion_counterexample :
    ttsRealVoicePOST allFailSpeechEnv "Hello world" =
      ⟨500, .jsonErr "Voice generation failed"⟩ ∧ (500 : ℕ) ≠ 200 := by
  constructor
  · rw [ttsRealVoicePOST, if_neg (by decide)]
    have hgen : generateActualSpeech allFailSpeechEnv =
        .error "All TTS services are currently unavailable" := by
      rw [generateActualSpeech, if_neg (by simp [allFailSpeechEnv]), speechStageVr,
        if_neg (by simp [allFailSpeechEnv]), speechStageFt,
        if_neg (by simp [allFailSpeechEnv]), speechStageTm,
        if_neg (by simp [allFailSpeechEnv]), generateWithGTTS,
        if_neg (by simp [allFailSpeechEnv])]
    rw [hgen]
  · norm_num

/-- **C4 (amended).** `parseResolution` maps every recognized token (named
preset or `WxH` literal) to its documented pixel width and height, but the
placeholder buffer built when all providers fail carries only
`min(width * height * 4, 50000)` bytes of raw pixel data after the 8-byte
PNG signature (`min(..., 100000)` in the base64 route) and contains no
IHDR chunk, so its byte content matches the documented dimensions only
when `width * height * 4` fits under the truncation cap. -/
theorem c4_placeholder_dimensions_amended (w h : ℕ) (prompt resolution : String) :
    (createSimplePNG w h).size = 8 + min (w * h * 4) 50000 ∧
    (generatePlaceholderImageB64 prompt resolution).size =
      min ((parseResolution resolution).1 * (parseResolution resolution).2 * 4)
        100000 ∧
    parseResolution "square" = (1024, 1024) ∧
    parseResolution "landscape" = (1792, 1024) ∧
    parseResolution "portrait" = (1024, 1792) ∧
    parseResolution "instagram" = (1080, 1080) ∧
    parseResolution "instagram-story" = (1080, 1920) ∧
    parseResolution "youtube-thumbnail" = (1280, 720) ∧
    parseResolution "facebook-cover" = (1200, 630) ∧
    parseResolution "twitter-header" = (1500, 500) ∧
    parseResolution "1024x1024" = (1024, 1024) ∧
    parseResolution "1920x1080" = (1920, 1080) ∧
    parseResolution "512x512" = (512, 512) ∧
    parseResolution "not-a-size" = (1024, 1024) :=
  ⟨createSimplePNG_size w h, generatePlaceholderImageB64_size prompt resolution,
    by decide, by decide, by decide, by decide, by decide, by decide, by decide,
    by decide, by decide, by decide, by decide, by decide⟩

/-- Counterexample to C4 as stated: the claim's own example token
`"1024x1024"` parses to 1024×1024, yet the placeholder buffer is 50008
bytes — 8 signature bytes plus 50000 truncated gradient bytes — while a
1024×1024 RGBA image requires `8 + 4·1024·1024` bytes, so the produced
"image" does not have the token's pixel dimensions. -/
theorem c4_placeholder_dimensions_counterexample :
    parseResolution "1024x1024" = (1024, 1024) ∧
    (createSimplePNG 1024 1024).size = 50008 ∧
    (50008 : ℕ) ≠ 8 + 1024 * 1024 * 4 := by
  refine ⟨by decide, ?_, by norm_num⟩
  rw [createSimplePNG_size]
  norm_num

/-- **C5 (amended).** The placeholder synthesizer is a pure function of its
text, format and oracle streams (no network access is modelled because the
code performs none), and its output *structure* is invocation-independent:
the buffer size, the WAV branch in its entirety, and the four MP3 header
bytes do not depend on the `Math.random()` stream.  The MP3 body bytes do
(`buffer[i] = Math.floor(Math.random() * 256)`), so two invocations need
not be byte-identical. -/
theorem c5_synthesis_determinism_amended (text format : String)
    (sinv expv r1 r2 : ℕ → ℚ) :
    (createRealisticAudio text format sinv expv r1).size =
      (createRealisticAudio text format sinv expv r2).size ∧
    createRealisticAudio text "wav" sinv expv r1 =
      createRealisticAudio text "wav" sinv expv r2 ∧
    (createRealisticAudio text "mp3" sinv expv r1).data 0 =
      (createRealisticAudio text "mp3" sinv expv r2).data 0 ∧
    (createRealisticAudio text "mp3" sinv expv r1).data 1 =
      (createRealisticAudio text "mp3" sinv expv r2).data 1 ∧
    (createRealisticAudio text "mp3" sinv expv r1).data 2 =
      (createRealisticAudio text "mp3" sinv expv r2).data 2 ∧
    (createRealisticAudio text "mp3" sinv expv r1).data 3 =
      (createRealisticAudio text "mp3" sinv expv r2).data 3 := by
  refine ⟨?_, rfl, ?_, ?_, ?_, ?_⟩
  · rw [createRealisticAudio, createRealisticAudio]
    split
    · rfl
    · simp
  all_goals
    rw [realisticMp3_data_lt4 _ _ _ _ _ (by omega),
      realisticMp3_data_lt4 _ _ _ _ _ (by omega)]

/-- Counterexample to C5 as stated: two invocations of the MP3 placeholder
on the identical text `"hello"` with two different `Math.random()` streams
(constantly 0 and constantly 1/2) produce different buffers — they differ
at offset 4, the first random fill byte. -/
theorem c5_synthesis_determinism_counterexample :
    (createRealisticAudio "hello" "mp3" zeroOracle zeroOracle zeroOracle).bytes ≠
      (createRealisticAudio "hello" "mp3" zeroOracle zeroOracle halfOracle).bytes := by
  have hlen : ("hello" : String).length = 5 := by decide
  have hmax : max 1024 (("hello" : String).length * 100) = 1024 := by
    rw [hlen]
    norm_num
  have hsz1 : (createRealisticAudio "hello" "mp3" zeroOracle zeroOracle
      zeroOracle).size = 1024 := by
    rw [realisticMp3_size, hmax]
  have hsz2 : (createRealisticAudio "hello" "mp3" zeroOracle zeroOracle
      halfOracle).size = 1024 := by
    rw [realisticMp3_size, hmax]
  have hd1 : (createRealisticAudio "hello" "mp3" zeroOracle zeroOracle
      zeroOracle).data 4 = 0 := by
    rw [realisticMp3_data4 _ _ _ _ (by rw [hmax]; norm_num)]
    have : zeroOracle 4 * 256 = 0 := by norm_num [zeroOracle]
    rw [this, byteOf, jsFloor, Int.floor_zero]
    rfl
  have hd2 : (createRealisticAudio "hello" "mp3" zeroOracle zeroOracle
      halfOracle).data 4 = 128 := by
    rw [realisticMp3_data4 _ _ _ _ (by rw [hmax]; norm_num)]
    have h128 : halfOracle 4 * 256 = ((128 : ℕ) : ℚ) := by norm_num [halfOracle]
    rw [h128, byteOf, jsFloor, Int.floor_natCast]
    rfl
  intro hcontra
  have h4 := congrArg (fun l => l.getD 4 0) hcontra
  simp only [] at h4
  rw [Buf.bytes_getD _ _ _ (by omega), Buf.bytes_getD _ _ _ (by omega)] at h4
  rw [hd1, hd2] at h4
  exact absurd h4 (by norm_num)

/-- **C6 (amended).** The documented length limits are enforced with an
HTTP 400 before any provider or synthesizer runs in `generate-image`
(1000-character prompts) and in the speech endpoints `tts`, `tts-binary`
and the ElevenLabs-style route (5000-character texts) — but
`generate-image-base64`, although it shares the documented 1000-character
limit of its endpoint family, performs no length check at all: any
non-empty prompt, however long, proceeds to provider invocation and a 200
response. -/
theorem c6_length_limit_amended (e : ImgEnv) (ee : ElevenEnv)
    (prompt resolution text format : String) (rate pitch volume : ℚ)
    (osc env rng : ℕ → ℚ)
    (hp : prompt.length > 1000) (ht : text.length > 5000) :
    imgPOST e prompt resolution =
      (⟨400, .jsonErr "Prompt must be less than 1000 characters"⟩, []) ∧
    ttsPOST text rate pitch volume =
      ⟨400, .jsonErr "Text must be less than 5000 characters"⟩ ∧
    ttsBinaryPOST text rate pitch volume format osc env rng =
      ⟨400, .jsonErr "Text must be less than 5000 characters"⟩ ∧
    elevenPOST ee text = ⟨400, .jsonErr "Text must be less than 5000 characters"⟩ ∧
    (imgB64POST e prompt resolution).1.status = 200 ∧
    (imgB64POST e prompt resolution).2 = [.pollinations] := by
  have hpne : prompt ≠ "" := by
    intro hc
    rw [hc] at hp
    simp at hp
  have htne : text ≠ "" := by
    intro hc
    rw [hc] at ht
    simp at ht
  refine ⟨?_, ?_, ?_, ?_, ?_, ?_⟩
  · rw [imgPOST, if_neg hpne, if_pos hp]
  · rw [ttsPOST, if_neg htne, if_pos ht]
  · rw [ttsBinaryPOST, if_neg htne, if_pos ht]
  · rw [elevenPOST, if_neg htne, if_pos ht]
  · rw [imgB64POST, if_neg hpne]
  · rw [imgB64POST, if_neg hpne]
    by_cases hpol : e.polOk ∧ e.polCtImage <;> simp [generateAIImageB64, hpol]

/-- Witness for C6's amended statement at a 1001-character prompt and a
5001-character text. -/
theorem c6_length_limit_amended_witness :
    longPrompt.length > 1000 ∧ longText.length > 5000 ∧
    imgPOST noProviderImgEnv longPrompt "1024x1024" =
      (⟨400, .jsonErr "Prompt must be less than 1000 characters"⟩, []) ∧
    (imgB64POST noProviderImgEnv longPrompt "1024x1024").1.status = 200 := by
  have hp : longPrompt.length > 1000 := by
    rw [show longPrompt.length = (List.replicate 1001 'a').length from rfl,
      List.length_replicate]
    norm_num
  have ht : longText.length > 5000 := by
    rw [show longText.length = (List.replicate 5001 'a').length from rfl,
      List.length_replicate]
    norm_num
  have H := c6_length_limit_amended noProviderImgEnv allFailElevenEnv longPrompt
    "1024x1024" longText "mp3" 1 1 1 zeroOracle zeroOracle zeroOracle hp ht
  exact ⟨hp, ht, H.1, H.2.2.2.2.1⟩

/-- Counterexample to C6 as stated: a 1001-character prompt (over the
documented 1000-character maximum of the image-prompt family) sent to
`generate-image-base64` is not rejected with a 400 — the endpoint answers
200 and invokes the Pollinations provider. -/
theorem c6_length_limit_counterexample :
    longPrompt.length > 1000 ∧
    (imgB64POST noProviderImgEnv longPrompt "1024x1024").1.status = 200 ∧
    (imgB64POST noProviderImgEnv longPrompt "1024x1024").2 = [.pollinations] := by
  have hp : longPrompt.length > 1000 := by
    rw [show longPrompt.length = (List.replicate 1001 'a').length from rfl,
      List.length_replicate]
    norm_num
  have hpne : longPrompt ≠ "" := by
    intro hc
    rw [hc] at hp
    simp at hp
  refine ⟨hp, ?_, ?_⟩
  · rw [imgB64POST, if_neg hpne]
  · rw [imgB64POST, if_neg hpne]
    simp [generateAIImageB64, noProviderImgEnv]

/-- **C8 (amended).** Provider attempts that carry the `> 1000`-byte
plausibility check (ResponsiveVoice, VoiceRSS and FreeTTS in
`tts-real-voice`; Hugging Face in `generate-image`) do treat an HTTP 200
response with an implausibly small body exactly like a failure and advance
to the next provider — but the Text-to-MP3 attempt has no size check and
forwards a 200 body of any length to the caller (as does Pollinations on
the image side). -/
theorem c8_plausibility_amended (e : SpeechEnv) (ei : ImgEnv)
    (prompt resolution : String)
    (h1 : e.rvOk = true) (h2 : e.rvCtAudio = true) (h3 : e.rvBytes.length ≤ 1000)
    (h4 : e.vrOk = true) (h5 : e.vrCtAudio = true) (h6 : e.vrBytes.length ≤ 1000)
    (h7 : e.ftOk = true) (h8 : e.ftBytes.length ≤ 1000)
    (h9 : e.tmOk = true) (h10 : e.tmHasURL = true) (h11 : e.tmFetchOk = true)
    (h12 : ei.hfBytes.length ≤ 1000) :
    generateActualSpeech e = speechStageVr e ∧
    speechStageVr e = speechStageFt e ∧
    speechStageFt e = speechStageTm e ∧
    speechStageTm e = .ok e.tmBytes ∧
    imgStageHf ei prompt resolution =
      ((imgStagePol ei prompt resolution).1,
        .huggingface :: (imgStagePol ei prompt resolution).2) :=
  ⟨generateActualSpeech_smallRv e h1 h2 h3, speechStageVr_smallVr e h4 h5 h6,
    speechStageFt_smallFt e h7 h8, speechStageTm_forwards e h9 h10 h11,
    imgStageHf_smallHf ei prompt resolution h12⟩

/-- Witness for C8's amended statement: in a run where every size-checked
provider answers 200 with a 10-byte body, the waterfall walks past all of
them and ends at the unchecked Text-to-MP3 body. -/
theorem c8_plausibility_amended_witness :
    c8SmallBody.length ≤ 1000 ∧
    generateActualSpeech c8SmallEnv = .ok c8SmallBody ∧
    imgStageHf c8ImgEnv "sunset" "512x512" =
      ((imgStagePol c8ImgEnv "sunset" "512x512").1,
        .huggingface :: (imgStagePol c8ImgEnv "sunset" "512x512").2) := by
  have hsmall : c8SmallBody.length ≤ 1000 := by
    simp [c8SmallBody]
  have H := c8_plausibility_amended c8SmallEnv c8ImgEnv "sunset" "512x512"
    rfl rfl hsmall rfl rfl hsmall rfl hsmall rfl rfl rfl hsmall
  exact ⟨hsmall, (((H.1.trans H.2.1).trans H.2.2.1).trans H.2.2.2.1), H.2.2.2.2⟩

/-- Counterexample to C8 as stated: with the first three providers failing
outright, the Text-to-MP3 attempt answers HTTP 200 with a 10-byte body —
far below the 1000-byte plausibility bar used by its sibling attempts —
and `tts-real-voice` forwards exactly those 10 bytes to the caller as
media instead of advancing. -/
theorem c8_plausibility_counterexample :
    ttsRealVoicePOST c8Env "Hello world" = ⟨200, .media c8SmallBody⟩ ∧
    c8SmallBody.length ≤ 1000 := by
  constructor
  · rw [ttsRealVoicePOST, if_neg (by decide)]
    have hgen : generateActualSpeech c8Env = .ok c8SmallBody := by
      rw [generateActualSpeech, if_neg (by simp [c8Env]), speechStageVr,
        if_neg (by simp [c8Env]), speechStageFt, if_neg (by simp [c8Env]),
        speechStageTm, if_pos (by simp [c8Env])]
      rfl
    rw [hgen]
  · simp [c8SmallBody]

/-- **C9 (amended).** Only `generateSimpleMP3` begins with the MPEG frame
sync bytes `0xFF 0xFB`.  In the other two cited MP3 generators an ID3v2
header occupies the start of the buffer: `createTelegramCompatibleAudio`
writes the sync at offset 0 but immediately overwrites offsets 0–9 with
`id3Header.copy(buffer, 0)`, leaving the first sync at offset 10, and
`createRealMP3` writes its ID3 header first, leaving the first sync at
offset 128 — both buffers begin with ASCII `"ID3"` (`0x49 0x44 0x33`),
not with `0xFF 0xFB`. -/
theorem c9_mp3_sync_amended (text : String) (osc env rng : ℕ → ℚ) (fill : ℕ → ℕ) :
    ((generateSimpleMP3 text).data 0 = 0xff ∧ (generateSimpleMP3 text).data 1 = 0xfb) ∧
    ((createTelegramCompatibleAudio text "mp3" osc env rng).data 0 = 0x49 ∧
     (createTelegramCompatibleAudio text "mp3" osc env rng).data 1 = 0x44 ∧
     (createTelegramCompatibleAudio text "mp3" osc env rng).data 2 = 0x33 ∧
     (createTelegramCompatibleAudio text "mp3" osc env rng).data 10 = 0xff ∧
     (createTelegramCompatibleAudio text "mp3" osc env rng).data 11 = 0xfb) ∧
    ((createRealMP3 text fill).data 0 = 0x49 ∧
     (createRealMP3 text fill).data 1 = 0x44 ∧
     (createRealMP3 text fill).data 2 = 0x33 ∧
     (createRealMP3 text fill).data 128 = 0xff ∧
     (createRealMP3 text fill).data 129 = 0xfb) := by
  obtain ⟨r0, r1, r2, r128, r129, -⟩ := realMp3_bytes text fill
  exact ⟨simpleMp3_bytes text, telegramMp3_bytes text osc env rng,
    r0, r1, r2, r128, r129⟩

/-- Counterexample to C9 as stated: the MP3 buffer of
`createTelegramCompatibleAudio` for the text `"hi"` begins with `0x49`
(ASCII `'I'` of the ID3 tag), not with the frame-sync byte `0xFF`. -/
theorem c9_mp3_sync_counterexample :
    (createTelegramCompatibleAudio "hi" "mp3" zeroOracle zeroOracle
      zeroOracle).data 0 = 0x49 ∧ (0x49 : ℕ) ≠ 0xff :=
  ⟨(telegramMp3_bytes "hi" zeroOracle zeroOracle zeroOracle).1, by norm_num⟩
